import Mathlib

/-!
Shallow embedding of the role-scoped authorization and payment / lease
lifecycle logic of the rental-management backend (Express + Prisma).

Conventions of the embedding:
* Opaque string ids (cuid) are modelled as `Nat`.
* `DateTime` values are modelled as `Int` timestamps; only their order is used.
* `Decimal(10,2)` amounts are modelled as `ℚ` (exact decimal values).
* The Prisma store is a record of lists (`DB`); `findUnique`/`findFirst` become
  `List.find?`, `findMany` becomes `List.filter` (+ `drop`/`take` for
  skip/take pagination), `updateMany` becomes `List.map`.
* A JavaScript runtime exception (e.g. reading `.ownerId` of `null`) aborts the
  handler; `asyncHandler` / the controller-level `try/catch` turn it into a
  500 Internal-error response.  We model this with the `HOut.thrown` outcome.
* Express handlers become functions `caller → request data → DB → HOut α × DB`;
  best-effort side effects (email, PDF receipt, socket push) carry no state in
  the model and are dropped, as the spec scopes them out.
-/

namespace Rental

/-- `UserRole` enum of the Prisma schema. -/
inductive Role
  | SUPER_ADMIN
  | OWNER
  | MANAGER
  | TENANT
deriving DecidableEq, Repr

/-- `PaymentStatus` enum. -/
inductive PaymentStatus
  | PENDING
  | PAID
  | OVERDUE
  | CANCELLED
  | REFUNDED
deriving DecidableEq, Repr

/-- `LeaseStatus` enum. -/
inductive LeaseStatus
  | ACTIVE
  | EXPIRED
  | TERMINATED
  | PENDING
deriving DecidableEq, Repr

/-- `PaymentMethod` enum (`@default(ONLINE)` in the schema). -/
inductive PaymentMethod
  | ONLINE
  | CASH
  | CHECK
  | BANK_TRANSFER
deriving DecidableEq, Repr

/-- Row of the `owners` table (only the id is consulted by the embedded code). -/
structure OwnerRow where
  id : Nat
deriving DecidableEq, Repr

/-- Row of the `tenants` table (fields consulted by the embedded handlers). -/
structure TenantRow where
  id : Nat
  propertyId : Nat
  isActive : Bool
deriving DecidableEq, Repr

/-- Row of the `properties` table. -/
structure PropertyRow where
  id : Nat
  ownerId : Nat
deriving DecidableEq, Repr

/-- Row of the `leases` table, with the schema fields the embedded handlers
read (`rentAmount Decimal` is the schema's column; the lease controller also
tries to write `monthlyRent`/`utilities`/`terminationDate`/`terminationReason`,
which do not exist on the `Lease` model — see `createLease` and
`terminateLease`). -/
structure LeaseRow where
  id : Nat
  tenantId : Nat
  propertyId : Nat
  startDate : Int
  endDate : Int
  rentAmount : ℚ
  status : LeaseStatus
deriving DecidableEq, Repr

/-- Row of the `payments` table. -/
structure PaymentRow where
  id : Nat
  tenantId : Nat
  leaseId : Nat
  amount : ℚ
  dueDate : Int
  paidDate : Option Int
  status : PaymentStatus
  method : PaymentMethod
  transactionId : Option String
  notes : Option String
deriving DecidableEq, Repr

/-- The relational store, restricted to the entities the claims touch. -/
structure DB where
  owners : List OwnerRow
  tenants : List TenantRow
  properties : List PropertyRow
  leases : List LeaseRow
  payments : List PaymentRow
deriving DecidableEq, Repr

/-- `manager` profile attached to `req.user` by `authenticate` (with its
`permissions` JSON object as an association list capability → boolean). -/
structure ManagerProfile where
  id : Nat
  ownerId : Nat
  permissions : List (String × Bool)
deriving DecidableEq, Repr

/-- `owner` profile attached to `req.user`. -/
structure OwnerProfile where
  id : Nat
deriving DecidableEq, Repr

/-- `tenant` profile attached to `req.user`. -/
structure TenantProfile where
  id : Nat
deriving DecidableEq, Repr

/-- `req.user` as produced by the `authenticate` middleware: the user row with
its (at most one) role profile included.  A profile that is absent in the
database is `none`, and JavaScript member access on it throws. -/
structure AuthUser where
  userId : Nat
  role : Role
  owner : Option OwnerProfile
  manager : Option ManagerProfile
  tenant : Option TenantProfile
deriving DecidableEq, Repr

/-- A JavaScript runtime exception (here always a `TypeError` from member
access on `null`/`undefined`). -/
inductive JsError
  | typeError
deriving DecidableEq, Repr

/-- Outcome of an Express handler: a 2xx payload, an explicit
`res.status(code).json({ error })`, or a thrown exception (surfaced to the
client as a 500 Internal-error response by `asyncHandler` or by the
controller's own `try/catch`). -/
inductive HOut (α : Type)
  | ok (payload : α)
  | err (code : Nat) (reason : String)
  | thrown
deriving DecidableEq, Repr

/-! ## Middleware (src/middleware/auth.js) -/

/-- A value handed to the rest parameter of `authorize(...roles)`: either a
role string (spread call `authorize('A', 'B')`) or an array of role strings
(call `authorize(['A', 'B'])`, which the rest parameter wraps into a
one-element argument list). -/
inductive JsArg
  | str (s : String)
  | arr (elems : List String)
deriving DecidableEq, Repr

/-- `roles.includes(req.user.role)` under JavaScript SameValueZero equality:
two strings compare by value; an array compares by reference, and the array
literal built at the `authorize([...])` call site is a different object from
any string (or any other value a role could be), so comparison with an
`.arr` element is always `false`. -/
def jsIncludes (xs : List JsArg) (v : JsArg) : Bool :=
  xs.any fun x =>
    match x, v with
    | .str a, .str b => a == b
    | _, _ => false

/-- Name of the role as the string stored in `User.role`. -/
def roleString : Role → String
  | .SUPER_ADMIN => "SUPER_ADMIN"
  | .OWNER => "OWNER"
  | .MANAGER => "MANAGER"
  | .TENANT => "TENANT"

/-- Result of an auth middleware: pass control on, or terminate with 401/403. -/
inductive MwResult
  | next
  | unauthenticated
  | forbidden
deriving DecidableEq, Repr

/-- `authorize = (...roles) => (req, res, next) => ...` from
src/middleware/auth.js lines 52–70: 401 when unauthenticated, 403 when
`!roles.includes(req.user.role)`, otherwise `next()`. -/
def authorize (roles : List JsArg) (user : Option AuthUser) : MwResult :=
  match user with
  | none => .unauthenticated
  | some u =>
    if jsIncludes roles (.str (roleString u.role)) then .next else .forbidden

/-- Lookup in the manager's `permissions` JSON object;
`none` models an absent key (JavaScript `undefined`). -/
def lookupPerm (perms : List (String × Bool)) (key : String) : Option Bool :=
  (perms.find? (fun kv => kv.1 == key)).map (fun kv => kv.2)

/-- `checkPermissions(requiredPermissions)` from src/middleware/auth.js lines
72–103.  SUPER_ADMIN and OWNER pass; a MANAGER with a manager profile must
have every required capability `=== true`; every other combination (including
TENANT) falls through to `next()`. -/
def checkPermissions (required : List String) (user : Option AuthUser) : MwResult :=
  match user with
  | none => .unauthenticated
  | some u =>
    if u.role = .SUPER_ADMIN ∨ u.role = .OWNER then .next
    else if u.role = .MANAGER then
      match u.manager with
      | some m =>
        if required.all (fun p => lookupPerm m.permissions p == some true)
        then .next
        else .forbidden
      | none => .next
    else .next

/-! ## Relation lookups (Prisma `include` / nested `where`) -/

/-- The lease a payment belongs to (`payment.lease`). -/
def relLease (db : DB) (p : PaymentRow) : Option LeaseRow :=
  db.leases.find? (fun l => l.id == p.leaseId)

/-- The property a lease belongs to (`lease.property`). -/
def relProperty (db : DB) (l : LeaseRow) : Option PropertyRow :=
  db.properties.find? (fun pr => pr.id == l.propertyId)

/-- `payment.lease.property.ownerId`, when the relation chain resolves. -/
def paymentLeaseOwnerId (db : DB) (p : PaymentRow) : Option Nat :=
  (relLease db p).bind fun l => (relProperty db l).map fun pr => pr.ownerId

/-! ## Overdue sweep (src/services/cronJobs.js, checkOverduePayments) -/

/-- Effect of the sweep's `updateMany` on a single payment row: a `PENDING`
payment whose `dueDate` is strictly before `now` becomes `OVERDUE`; every
other row is untouched. -/
def overdueStep (now : Int) (p : PaymentRow) : PaymentRow :=
  if p.status = .PENDING ∧ p.dueDate < now then { p with status := .OVERDUE } else p

/-- The bulk `updateMany({ where: { status: PENDING, dueDate: { lt: now } },
data: { status: OVERDUE } })` of the daily cron sweep, over the whole payment
table with no ownership scoping. -/
def sweepPayments (now : Int) (ps : List PaymentRow) : List PaymentRow :=
  ps.map (overdueStep now)

/-- The overdue-detection cron sweep as a state transition on the store. -/
def checkOverduePaymentsSweep (now : Int) (db : DB) : DB :=
  { db with payments := sweepPayments now db.payments }

/-! ## getPayments (paymentController.js lines 74–158) -/

/-- Query string of `GET /payments`; `none` is an absent (or empty, hence
falsy) parameter.  `page`/`limit` default to 1/10 in the handler. -/
structure PaymentsQuery where
  page : Nat := 1
  limit : Nat := 10
  status : Option PaymentStatus := none
  tenantId : Option Nat := none
  propertyId : Option Nat := none
  startDate : Option Int := none
  endDate : Option Int := none
deriving DecidableEq, Repr

/-- The `where` object `getPayments` builds before querying, flattened:
`lease.property.ownerId` and `lease.propertyId` are the two nested relation
conditions it can set. -/
structure PaymentWhere where
  tenantId : Option Nat := none
  leaseOwnerId : Option Nat := none
  leasePropertyId : Option Nat := none
  status : Option PaymentStatus := none
  dueGte : Option Int := none
  dueLte : Option Int := none
deriving DecidableEq, Repr

/-- Construction of the `where` object, statement by statement: the role-based
scope is assigned first, then each supplied query parameter is written into the
object — in particular `if (tenantId) where.tenantId = tenantId` overwrites the
TENANT scope filter previously stored in the same key.  Member access
`req.user.tenant.id` (and the owner/manager analogues) throws when the profile
is absent. -/
def getPaymentsWhere (u : AuthUser) (q : PaymentsQuery) :
    Except JsError PaymentWhere := do
  let w0 : PaymentWhere := {}
  let w1 ←
    match u.role with
    | .TENANT =>
      match u.tenant with
      | some t => Except.ok { w0 with tenantId := some t.id }
      | none => Except.error .typeError
    | .OWNER =>
      match u.owner with
      | some o => Except.ok { w0 with leaseOwnerId := some o.id }
      | none => Except.error .typeError
    | .MANAGER =>
      match u.manager with
      | some m => Except.ok { w0 with leaseOwnerId := some m.ownerId }
      | none => Except.error .typeError
    | .SUPER_ADMIN => Except.ok w0
  let w2 := match q.status with
    | some s => { w1 with status := some s }
    | none => w1
  let w3 := match q.tenantId with
    | some t => { w2 with tenantId := some t }
    | none => w2
  let w4 := match q.propertyId with
    | some pid => { w3 with leasePropertyId := some pid }
    | none => w3
  let w5 := match q.startDate with
    | some d => { w4 with dueGte := some d }
    | none => w4
  let w6 := match q.endDate with
    | some d => { w5 with dueLte := some d }
    | none => w5
  return w6

/-- Evaluation of the flattened `where` object against one payment row.  A
relation condition (`lease: { ... }`) requires the related lease (and, for the
ownerId condition, its property) to exist and satisfy the nested fields. -/
def paymentMatchesWhere (db : DB) (w : PaymentWhere) (p : PaymentRow) : Bool :=
  (match w.tenantId with | none => true | some t => p.tenantId == t) &&
  (match w.status with | none => true | some s => p.status = s) &&
  (match w.dueGte with | none => true | some d => d ≤ p.dueDate) &&
  (match w.dueLte with | none => true | some d => p.dueDate ≤ d) &&
  (match w.leaseOwnerId, w.leasePropertyId with
   | none, none => true
   | ow, pidw =>
     match relLease db p with
     | none => false
     | some l =>
       (match pidw with | none => true | some pid => l.propertyId == pid) &&
       (match ow with
        | none => true
        | some o =>
          match relProperty db l with
          | none => false
          | some pr => pr.ownerId == o))

/-- `GET /payments`: build the `where` object, then
`findMany({ where, skip, take })`.  (`orderBy: dueDate desc` only permutes the
page and is not modelled; no claim depends on the order of the page.) -/
def getPayments (u : AuthUser) (q : PaymentsQuery) (db : DB) :
    Except JsError (List PaymentRow) :=
  (getPaymentsWhere u q).map fun w =>
    (((db.payments.filter (paymentMatchesWhere db w)).drop
        ((q.page - 1) * q.limit)).take q.limit)

/-! ## getLeases (leaseController.js lines 142–218) -/

/-- Query string of `GET /leases`. -/
structure LeasesQuery where
  page : Nat := 1
  limit : Nat := 10
  status : Option LeaseStatus := none
  propertyId : Option Nat := none
  tenantId : Option Nat := none
deriving DecidableEq, Repr

/-- The `where` object `getLeases` builds: `property.ownerId` is the nested
relation condition, the rest are scalar columns of the lease row. -/
structure LeaseWhere where
  propertyOwnerId : Option Nat := none
  tenantId : Option Nat := none
  status : Option LeaseStatus := none
  propertyId : Option Nat := none
deriving DecidableEq, Repr

/-- Construction of the `where` object of `getLeases`; as in `getPayments`,
`if (tenantId) where.tenantId = tenantId` overwrites the TENANT scope filter. -/
def getLeasesWhere (u : AuthUser) (q : LeasesQuery) : Except JsError LeaseWhere := do
  let w0 : LeaseWhere := {}
  let w1 ←
    match u.role with
    | .OWNER =>
      match u.owner with
      | some o => Except.ok { w0 with propertyOwnerId := some o.id }
      | none => Except.error .typeError
    | .MANAGER =>
      match u.manager with
      | some m => Except.ok { w0 with propertyOwnerId := some m.ownerId }
      | none => Except.error .typeError
    | .TENANT =>
      match u.tenant with
      | some t => Except.ok { w0 with tenantId := some t.id }
      | none => Except.error .typeError
    | .SUPER_ADMIN => Except.ok w0
  let w2 := match q.status with
    | some s => { w1 with status := some s }
    | none => w1
  let w3 := match q.propertyId with
    | some pid => { w2 with propertyId := some pid }
    | none => w2
  let w4 := match q.tenantId with
    | some t => { w3 with tenantId := some t }
    | none => w3
  return w4

/-- Evaluation of the lease `where` object against one lease row. -/
def leaseMatchesWhere (db : DB) (w : LeaseWhere) (l : LeaseRow) : Bool :=
  (match w.tenantId with | none => true | some t => l.tenantId == t) &&
  (match w.status with | none => true | some s => l.status = s) &&
  (match w.propertyId with | none => true | some pid => l.propertyId == pid) &&
  (match w.propertyOwnerId with
   | none => true
   | some o =>
     match relProperty db l with
     | none => false
     | some pr => pr.ownerId == o)

/-- `GET /leases`: build the `where` object, then `findMany` with pagination.
(`orderBy: createdAt desc` is not modelled, as for `getPayments`.) -/
def getLeases (u : AuthUser) (q : LeasesQuery) (db : DB) :
    Except JsError (List LeaseRow) :=
  (getLeasesWhere u q).map fun w =>
    (((db.leases.filter (leaseMatchesWhere db w)).drop
        ((q.page - 1) * q.limit)).take q.limit)

/-! ## markPaymentAsPaid (paymentController.js lines 404–513) -/

/-- Request body of `POST /payments/:id/pay` (all fields may be absent). -/
structure PayBody where
  method : Option PaymentMethod := none
  transactionId : Option String := none
  notes : Option String := none
deriving DecidableEq, Repr

/-- JavaScript `notes || payment.notes`: the supplied value unless it is
falsy (absent or the empty string). -/
def jsOrNotes (supplied fallback : Option String) : Option String :=
  match supplied with
  | some s => if s = "" then fallback else some s
  | none => fallback

/-- `req.user.role === 'OWNER' ? req.user.owner.id : req.user.manager.ownerId`
(paymentController.js lines 311 and 451): plain member access, so a caller with
neither applicable profile — a SUPER_ADMIN or a TENANT — makes the right-hand
branch throw a TypeError. -/
def allowedOwnerIdStrict (u : AuthUser) : Except JsError Nat :=
  if u.role = .OWNER then
    match u.owner with
    | some o => Except.ok o.id
    | none => Except.error .typeError
  else
    match u.manager with
    | some m => Except.ok m.ownerId
    | none => Except.error .typeError

/-- The `payment.update` data of `markPaymentAsPaid`: status becomes `PAID`,
`paidDate` becomes `now`; `method` and `transactionId` are written when
supplied (Prisma ignores `undefined` fields in `data`); `notes` is
`notes || payment.notes`. -/
def settlePayment (body : PayBody) (now : Int) (p : PaymentRow) : PaymentRow :=
  { p with
    status := .PAID
    method := body.method.getD p.method
    transactionId := match body.transactionId with
      | some t => some t
      | none => p.transactionId
    paidDate := some now
    notes := jsOrNotes body.notes p.notes }

/-- `POST /payments/:id/pay` — manual settlement.  In source order: 404 when
the payment does not resolve, 400 when its status is already `PAID`, then the
ownership check (403, or a thrown TypeError for a caller with neither an owner
nor a manager profile), then the conditional update.  Receipt generation and
the confirmation email are best-effort side effects without store state in the
model. -/
def markPaymentAsPaid (u : AuthUser) (payId : Nat) (body : PayBody) (now : Int)
    (db : DB) : HOut PaymentRow × DB :=
  match db.payments.find? (fun p => p.id == payId) with
  | none => (.err 404 "Payment not found", db)
  | some payment =>
    if payment.status = .PAID then
      (.err 400 "Payment already paid", db)
    else
      match allowedOwnerIdStrict u with
      | .error _ => (.thrown, db)
      | .ok allowed =>
        match paymentLeaseOwnerId db payment with
        | none => (.thrown, db)
        | some propOwner =>
          if propOwner ≠ allowed then
            (.err 403 "Forbidden", db)
          else
            let p2 := settlePayment body now payment
            (.ok p2,
             { db with
                payments := db.payments.map fun q =>
                  if q.id == payId then p2 else q })

/-! ## createPayment (paymentController.js lines 284–368) -/

/-- Request body of `POST /payments`. -/
structure CreatePaymentBody where
  tenantId : Nat
  leaseId : Nat
  amount : ℚ
  dueDate : Int
  notes : Option String := none
deriving DecidableEq, Repr

/-- `POST /payments`: 404 when the lease does not resolve, 400 when the lease
does not belong to the supplied tenant, then the ownership check (403, or a
thrown TypeError for a SUPER_ADMIN/TENANT caller), then `payment.create` with
the schema defaults `status = PENDING`, `method = ONLINE`. -/
def createPayment (u : AuthUser) (b : CreatePaymentBody) (newId : Nat)
    (db : DB) : HOut PaymentRow × DB :=
  match db.leases.find? (fun l => l.id == b.leaseId) with
  | none => (.err 404 "Lease not found", db)
  | some lease =>
    if lease.tenantId ≠ b.tenantId then
      (.err 400 "Invalid tenant", db)
    else
      match allowedOwnerIdStrict u with
      | .error _ => (.thrown, db)
      | .ok allowed =>
        match relProperty db lease with
        | none => (.thrown, db)
        | some property =>
          if property.ownerId ≠ allowed then
            (.err 403 "Forbidden", db)
          else
            let p : PaymentRow :=
              { id := newId
                tenantId := b.tenantId
                leaseId := b.leaseId
                amount := b.amount
                dueDate := b.dueDate
                paidDate := none
                status := .PENDING
                method := .ONLINE
                transactionId := none
                notes := b.notes }
            (.ok p, { db with payments := db.payments ++ [p] })

/-! ## getOverduePayments (paymentController.js lines 527–592) -/

/-- Role scope of `getOverduePayments`: an owning-owner filter for OWNER and
MANAGER callers (throwing when the profile is absent), no filter otherwise. -/
def overdueScope (u : AuthUser) : Except JsError (Option Nat) :=
  if u.role = .OWNER then
    match u.owner with
    | some o => Except.ok (some o.id)
    | none => Except.error .typeError
  else if u.role = .MANAGER then
    match u.manager with
    | some m => Except.ok (some m.ownerId)
    | none => Except.error .typeError
  else Except.ok none

/-- The `where` of `getOverduePayments`: `status = PENDING`, `dueDate < now`,
plus the role scope through `lease.property.ownerId`. -/
def overdueMatches (db : DB) (scope : Option Nat) (now : Int)
    (p : PaymentRow) : Bool :=
  p.status = .PENDING && p.dueDate < now &&
  (match scope with
   | none => true
   | some o =>
     match paymentLeaseOwnerId db p with
     | none => false
     | some ow => ow == o)

/-- `GET /payments/overdue`: select the matching payments, then — inside the
read handler — `updateMany` them to `OVERDUE`; the response echoes the rows
with status rewritten to `OVERDUE`. -/
def getOverduePayments (u : AuthUser) (now : Int) (db : DB) :
    HOut (List PaymentRow) × DB :=
  match overdueScope u with
  | .error _ => (.thrown, db)
  | .ok scope =>
    let sel := db.payments.filter (overdueMatches db scope now)
    let ids := sel.map (fun p => p.id)
    (.ok (sel.map fun p => { p with status := .OVERDUE }),
     { db with
        payments := db.payments.map fun p =>
          if p.id ∈ ids then { p with status := .OVERDUE } else p })

/-! ## createLease / terminateLease (leaseController.js) -/

/-- Request body of `POST /leases`. -/
structure CreateLeaseBody where
  tenantId : Nat
  propertyId : Nat
  startDate : Int
  endDate : Int
  monthlyRent : ℚ
deriving DecidableEq, Repr

/-- `req.user.role === 'OWNER' ? req.user.owner.id : req.user.manager?.ownerId`
(leaseController.js lines 46, 399, 458, 536): optional chaining, so a caller
with no manager profile yields `undefined` (`none`) instead of throwing; only
an OWNER with a missing owner profile would throw. -/
def allowedOwnerIdOpt (u : AuthUser) : Except JsError (Option Nat) :=
  if u.role = .OWNER then
    match u.owner with
    | some o => Except.ok (some o.id)
    | none => Except.error .typeError
  else Except.ok (u.manager.map fun m => m.ownerId)

/-- The `findFirst` predicate of `createLease` lines 55–71: an ACTIVE lease of
the same tenant, or an ACTIVE lease on the same property with
`startDate <= new.endDate AND endDate >= new.startDate` (a closed-interval
overlap test — abutting ranges satisfy it). -/
def leaseConflictPred (b : CreateLeaseBody) (l : LeaseRow) : Bool :=
  (l.tenantId == b.tenantId && l.status = LeaseStatus.ACTIVE) ||
  (l.propertyId == b.propertyId && l.status = LeaseStatus.ACTIVE &&
   l.startDate ≤ b.endDate && b.startDate ≤ l.endDate)

/-- `POST /leases`: 404s for a missing tenant or property, the ownership check
(`property.ownerId !== allowedOwnerId`, where a non-OWNER caller without a
manager profile compares against `undefined` and is always Forbidden), the
conflicting-lease check, then `lease.create`.  The create's `data` passes
`monthlyRent` and `utilities` and omits `rentAmount`, which the schema's
`Lease` model requires (and has instead of those two), so the Prisma client
rejects the call: every run that reaches the create throws (the handler's
catch answers 500), no lease row is written, and the subsequent
`tenant.update({ isActive: true })` and notification are never reached.
(`newId` is the id the create would have assigned; it is kept in the
signature to mark where row creation sits in the handler.) -/
def createLease (u : AuthUser) (b : CreateLeaseBody) (newId : Nat) (db : DB) :
    HOut LeaseRow × DB :=
  match db.tenants.find? (fun t => t.id == b.tenantId) with
  | none => (.err 404 "Tenant not found", db)
  | some _tenant =>
    match db.properties.find? (fun pr => pr.id == b.propertyId) with
    | none => (.err 404 "Property not found", db)
    | some property =>
      match allowedOwnerIdOpt u with
      | .error _ => (.thrown, db)
      | .ok allowed =>
        if some property.ownerId ≠ allowed then
          (.err 403 "Forbidden", db)
        else if (db.leases.find? (leaseConflictPred b)).isSome then
          (.err 400 "Conflicting lease", db)
        else
          (.thrown, db)

/-- `POST /leases/:id/terminate`: 404 when the lease does not resolve, the
ownership check (same optional-chaining pattern as `createLease`), 400 when the
lease is already `TERMINATED`, then `lease.update`.  The update's `data` sets
`terminationDate` and `terminationReason`, fields the schema's `Lease` model
does not have, so the Prisma client rejects the call: every run that reaches
the update throws (the handler's catch answers 500), no row changes, and the
subsequent `tenant.update({ isActive: false })` is never reached.
(`terminationDate`/`reason`/`now` are the request-body values the broken
update would have recorded.) -/
def terminateLease (u : AuthUser) (leaseId : Nat) (terminationDate : Option Int)
    (reason : Option String) (now : Int) (db : DB) : HOut LeaseRow × DB :=
  match db.leases.find? (fun l => l.id == leaseId) with
  | none => (.err 404 "Lease not found", db)
  | some lease =>
    match allowedOwnerIdOpt u with
    | .error _ => (.thrown, db)
    | .ok allowed =>
      match relProperty db lease with
      | none => (.thrown, db)
      | some property =>
        if some property.ownerId ≠ allowed then
          (.err 403 "Forbidden", db)
        else if lease.status = .TERMINATED then
          (.err 400 "Lease already terminated", db)
        else
          (.thrown, db)

/-! ## IEEE-754 binary64 arithmetic, at fixed scale 2⁻⁴⁸

`getPaymentAnalytics` (ownerRoutes/analytics controller) accumulates
`sum + Number(p.amount)` and `generateMonthlyReports` accumulates
`sum + payment.amount` in JavaScript numbers, i.e. IEEE-754 binary64 with
round-to-nearest, ties-to-even.  Every number arising in those folds here is a
nonnegative multiple of 2⁻⁴⁸ (0, and doubles with exponent ≥ 4, e.g. the
binary64 nearest to 19.99), and that set is closed under binary64 addition, so
we represent such a double exactly as the natural number `value·2⁴⁸` and
binary64 addition as exact addition followed by rounding to 53 significant
bits. -/

/-- Bit length of a natural number, with explicit fuel (exact for `n < 2^128`,
far above every value arising here). -/
def bitsAux : Nat → Nat → Nat
  | 0, _ => 0
  | fuel + 1, n => if n = 0 then 0 else bitsAux fuel (n / 2) + 1

/-- Bit length: `bitLen 0 = 0`, and `2^(bitLen n - 1) ≤ n < 2^(bitLen n)`. -/
def bitLen (n : Nat) : Nat := bitsAux 128 n

/-- Round a natural number to at most 53 significant bits,
round-half-to-even: the mantissa rounding step of binary64. -/
def roundSig53 (n : Nat) : Nat :=
  let b := bitLen n
  if b ≤ 53 then n
  else
    let t := b - 53
    let q := n / 2 ^ t
    let r := n % 2 ^ t
    let half := 2 ^ (t - 1)
    let m := if r < half then q
             else if half < r then q + 1
             else if q % 2 = 0 then q else q + 1
    m * 2 ^ t

/-- Binary64 addition on doubles represented as `value·2⁴⁸`: the exact sum is
again a multiple of 2⁻⁴⁸, and rounding it to 53 significant bits is exactly
the IEEE round-to-nearest-even result (no overflow in the ranges used). -/
def f64add48 (x y : Nat) : Nat := roundSig53 (x + y)

/-- `Number(p.amount)` — the binary64 nearest to a nonnegative `Decimal(10,2)`
amount — at scale 2⁻⁴⁸: the nearest natural number to `q·2⁴⁸` (ties to even),
computed on the numerator and denominator.  For an amount in the binade
[16, 32) (such as 19.99, the value the claims evaluate) the unit in the last
place is exactly 2⁻⁴⁸, so the nearest multiple of 2⁻⁴⁸ is the correctly
rounded double. -/
def toNumber48 (q : ℚ) : Nat :=
  let a := q.num.toNat * 2 ^ 48
  let b := q.den
  let n := a / b
  let r := a % b
  if 2 * r < b then n
  else if b < 2 * r then n + 1
  else if n % 2 = 0 then n else n + 1

/-! ## getPaymentAnalytics (analytics controller, part_008 lines 329–348) -/

/-- `buildScopeWhereClause(user)` from the analytics controller: an
`property.ownerId` filter for OWNER and MANAGER callers (plain member access,
throwing when the profile is absent), nothing otherwise. -/
def buildScopeOwnerId (u : AuthUser) : Except JsError (Option Nat) :=
  if u.role = .OWNER then
    match u.owner with
    | some o => Except.ok (some o.id)
    | none => Except.error .typeError
  else if u.role = .MANAGER then
    match u.manager with
    | some m => Except.ok (some m.ownerId)
    | none => Except.error .typeError
  else Except.ok none

/-- The `where: { lease: scopeWhere }` filter of `getPaymentAnalytics`. -/
def analyticsScopeMatches (db : DB) (scope : Option Nat) (p : PaymentRow) : Bool :=
  match scope with
  | none => true
  | some o =>
    match paymentLeaseOwnerId db p with
    | none => false
    | some ow => ow == o

/-- The fields of the `getPaymentAnalytics` response the claims talk about:
`totalPayments = payments.length` and
`totalAmount = payments.reduce((sum, p) => sum + Number(p.amount), 0)`, a
binary64 left fold (`totalAmount48` is that double at scale 2⁻⁴⁸).  The
`byStatus`/`byMethod` tallies of the same handler are not modelled. -/
structure PaymentAnalyticsOut where
  totalPayments : Nat
  totalAmount48 : Nat
deriving DecidableEq, Repr

/-- `GET /analytics/payments`: scope resolution, `findMany`, then the
floating-point accumulation of `totalAmount`. -/
def getPaymentAnalytics (u : AuthUser) (db : DB) : HOut PaymentAnalyticsOut :=
  match buildScopeOwnerId u with
  | .error _ => .thrown
  | .ok scope =>
    let ps := db.payments.filter (analyticsScopeMatches db scope)
    .ok
      { totalPayments := ps.length
        totalAmount48 := ps.foldl (fun s p => f64add48 s (toNumber48 p.amount)) 0 }

/-! ## generateMonthlyReports (cronJobs.js lines 123–194)

The sweep's owners query asks for a per-property `payments` include, but the
schema's `Property` model has no `payments` relation (payments attach to a
`Lease`), so the query as written is rejected by the Prisma client; and the
`analytics.create` data (`startDate`/`endDate`/`totalRevenue`/
`totalProperties`/`occupiedProperties`/`occupancyRate`, with no `type`) does
not match the `Analytics` model either.  The model below keeps the loop's
control flow, leaves all store-level failures (including these schema
mismatches) to the `persistOf` oracle, and does not model the
`totalRevenue` computation, whose `paymentSum + payment.amount` fold depends
on the nonexistent include (and would in any case coerce Prisma `Decimal`
values through strings rather than add doubles).  `ws`/`we` are the report
window `startOfMonth`/`endOfMonth`; with the payments include unmodelled they
no longer affect the snapshot content. -/

/-- Whether a property has at least one ACTIVE lease (the cron query's
`leases: { where: { status: ACTIVE } }` include, tested non-empty). -/
def propertyOccupied (db : DB) (pr : PropertyRow) : Bool :=
  db.leases.any fun l => l.propertyId == pr.id && l.status = LeaseStatus.ACTIVE

/-- The `analytics.create` data computed per owner by the monthly sweep, for
the fields whose queries the schema defines (`occupancyRate` is derived from
the two property counts and carries no extra information; `totalRevenue` is
not modelled, see the section comment). -/
structure AnalyticsSnapshot where
  ownerId : Nat
  totalProperties : Nat
  occupiedProperties : Nat
deriving DecidableEq, Repr

/-- The per-owner computation of `generateMonthlyReports`: the property and
occupancy counts over the owner's properties. -/
def ownerSnapshot (db : DB) (ws we : Int) (o : OwnerRow) : AnalyticsSnapshot :=
  let props := db.properties.filter fun pr => pr.ownerId == o.id
  { ownerId := o.id
    totalProperties := props.length
    occupiedProperties := (props.filter (propertyOccupied db)).length }

/-- The `for (const owner of owners)` loop of `generateMonthlyReports`.
`persistOf oid` says whether computing and persisting the snapshot
(`prisma.analytics.create`) succeeds for that owner; the loop body is not
wrapped in its own try/catch, so the first failing owner throws out of the
loop (the exception is caught and only logged at the sweep boundary) and no
later owner is processed.  Against the deployed schema the create's data
mismatch makes every owner fail, so `persistOf` is there constantly false. -/
def monthlyReportOwnersLoop (persistOf : Nat → Bool) (db : DB) (ws we : Int) :
    List OwnerRow → List AnalyticsSnapshot
  | [] => []
  | o :: rest =>
    if persistOf o.id then
      ownerSnapshot db ws we o :: monthlyReportOwnersLoop persistOf db ws we rest
    else []

/-- The monthly aggregate sweep: the snapshots actually persisted by one run,
given which `analytics.create` calls succeed. -/
def generateMonthlyReportsSweep (persistOf : Nat → Bool) (ws we : Int)
    (db : DB) : List AnalyticsSnapshot :=
  monthlyReportOwnersLoop persistOf db ws we db.owners

/-! ## The closed-open overlap relation of the specification

The specification glossary defines: two date ranges [s1,e1) and [s2,e2)
overlap iff `s1 < e2 ∧ s2 < e1`.  This definition follows the spec's words
(not the source) and exists only to be compared against the source's
conflicting-lease test. -/

/-- Closed-open interval overlap as worded by the specification glossary. -/
def specClosedOpenOverlap (s1 e1 s2 e2 : Int) : Prop := s1 < e2 ∧ s2 < e1

instance (s1 e1 s2 e2 : Int) : Decidable (specClosedOpenOverlap s1 e1 s2 e2) :=
  inferInstanceAs (Decidable (_ ∧ _))

/-! ## Concrete fixtures -/

/-- Owner 1 (fixture). -/
def ownerA : OwnerRow := { id := 1 }

/-- Owner 2 (fixture). -/
def ownerB : OwnerRow := { id := 2 }

/-- Property 11, owned by owner 1 (fixture). -/
def prop11 : PropertyRow := { id := 11, ownerId := 1 }

/-- Property 12, owned by owner 2 (fixture). -/
def prop12 : PropertyRow := { id := 12, ownerId := 2 }

/-- Tenant 21, housed at property 11 (fixture). -/
def tenant21 : TenantRow := { id := 21, propertyId := 11, isActive := true }

/-- Tenant 22, housed at property 12 (fixture). -/
def tenant22 : TenantRow := { id := 22, propertyId := 12, isActive := true }

/-- Tenant 23, housed at property 11, currently without a lease (fixture). -/
def tenant23 : TenantRow := { id := 23, propertyId := 11, isActive := false }

/-- ACTIVE lease 31 of tenant 21 on property 11, over [100, 200) (fixture). -/
def lease31 : LeaseRow :=
  { id := 31, tenantId := 21, propertyId := 11, startDate := 100, endDate := 200
    rentAmount := 2500, status := .ACTIVE }

/-- ACTIVE lease 32 of tenant 22 on property 12, over [100, 400) (fixture). -/
def lease32 : LeaseRow :=
  { id := 32, tenantId := 22, propertyId := 12, startDate := 100, endDate := 400
    rentAmount := 1800, status := .ACTIVE }

/-- PENDING payment 41 of tenant 21 on lease 31, due at 150 (fixture). -/
def pay41 : PaymentRow :=
  { id := 41, tenantId := 21, leaseId := 31, amount := 2500, dueDate := 150
    paidDate := none, status := .PENDING, method := .ONLINE
    transactionId := none, notes := none }

/-- PENDING payment 42 of tenant 22 on lease 32, due at 160 (fixture). -/
def pay42 : PaymentRow :=
  { id := 42, tenantId := 22, leaseId := 32, amount := 1800, dueDate := 160
    paidDate := none, status := .PENDING, method := .ONLINE
    transactionId := none, notes := none }

/-- PAID payment 43 of tenant 21 on lease 31 (fixture). -/
def pay43 : PaymentRow :=
  { id := 43, tenantId := 21, leaseId := 31, amount := 2500, dueDate := 120
    paidDate := some 118, status := .PAID, method := .CASH
    transactionId := some "tx-1", notes := none }

/-- Base store fixture: two owners with one property, lease and tenant each,
a spare tenant, and three payments. -/
def dbBase : DB :=
  { owners := [ownerA, ownerB]
    tenants := [tenant21, tenant22, tenant23]
    properties := [prop11, prop12]
    leases := [lease31, lease32]
    payments := [pay41, pay42, pay43] }

/-- Authenticated TENANT caller with tenant profile 21 (fixture). -/
def uTenant21 : AuthUser :=
  { userId := 101, role := .TENANT, owner := none, manager := none
    tenant := some { id := 21 } }

/-- Authenticated OWNER caller with owner profile 1 (fixture). -/
def uOwner1 : AuthUser :=
  { userId := 102, role := .OWNER, owner := some { id := 1 }, manager := none
    tenant := none }

/-- Authenticated MANAGER caller for owner 1 whose permissions JSON does not
contain `approvePayments` at all (fixture). -/
def uManagerNoPerm : AuthUser :=
  { userId := 103, role := .MANAGER, owner := none
    manager := some { id := 51, ownerId := 1
                      permissions := [("manageProperties", true)] }
    tenant := none }

/-- Authenticated SUPER_ADMIN caller; as for every SUPER_ADMIN user, no
owner/manager/tenant profile row exists (fixture). -/
def uSuper : AuthUser :=
  { userId := 104, role := .SUPER_ADMIN, owner := none, manager := none
    tenant := none }

/-- Query naming another tenant's id, as sent by tenant 21 (fixture). -/
def qTenant22 : PaymentsQuery := { tenantId := some 22 }

/-- Lease-list query naming another tenant's id (fixture). -/
def lqTenant22 : LeasesQuery := { tenantId := some 22 }

/-- Settlement body with every field supplied (fixture). -/
def payBodyCash : PayBody :=
  { method := some .CASH, transactionId := some "tx-9", notes := some "late" }

/-- New-lease body abutting lease 31: its startDate equals lease 31's endDate,
so the two closed-open intervals [100,200) and [200,300) do not overlap
(fixture). -/
def abutBody : CreateLeaseBody :=
  { tenantId := 23, propertyId := 11, startDate := 200, endDate := 300
    monthlyRent := 2600 }

/-- New-lease body on property 11 over [300,400), conflicting with nothing
(fixture). -/
def leaseBody300 : CreateLeaseBody :=
  { tenantId := 23, propertyId := 11, startDate := 300, endDate := 400
    monthlyRent := 2600 }

/-- New-payment body against lease 31 (fixture). -/
def payBody500 : CreatePaymentBody :=
  { tenantId := 21, leaseId := 31, amount := 2500, dueDate := 500, notes := none }

/-- Persistence oracle under which `analytics.create` throws exactly for
owner 1 (fixture for the monthly sweep). -/
def persistFailA (oid : Nat) : Bool := oid != 1

/-- One 19.99 payment of the drift fixture (`mkRat 1999 100` is the exact
decimal 19.99 the Decimal(10,2) column stores; row ids play no part in the
analytics query, so the fixture repeats one row). -/
def payC8 : PaymentRow :=
  { id := 1000, tenantId := 21, leaseId := 31, amount := mkRat 1999 100
    dueDate := 150, paidDate := some 150, status := .PAID, method := .ONLINE
    transactionId := none, notes := none }

/-- The 10000 payments of 19.99 each of the drift fixture. -/
def c8list : List PaymentRow := List.replicate 10000 payC8

/-- Store with 10000 payments of 19.99 each on owner 1's property (fixture for
the currency-exactness claim). -/
def dbC8 : DB :=
  { owners := [ownerA]
    tenants := [tenant21]
    properties := [prop11]
    leases := [lease31]
    payments := c8list }

/-- Iterated binary64 addition of a fixed addend `a` (at scale 2⁻⁴⁸):
the shape of the `totalAmount` left fold over identical amounts. -/
def iterAdd (a : Nat) : Nat → Nat → Nat
  | 0, s => s
  | k + 1, s => iterAdd a k (f64add48 s a)

/-- The binary64 value of 19.99, at scale 2⁻⁴⁸. -/
def amt48 : Nat := toNumber48 (mkRat 1999 100)

deriving instance DecidableEq for Except

/-- Expected payment row created by `createPayment` on `payBody500` (fixture). -/
def pay90 : PaymentRow :=
  { id := 90, tenantId := 21, leaseId := 31, amount := 2500, dueDate := 500
    paidDate := none, status := .PENDING, method := .ONLINE
    transactionId := none, notes := none }

/-- Expected payment row produced by settling payment 41 with an empty body at
160 (fixture). -/
def pay41Settled : PaymentRow := settlePayment {} 160 pay41

/-! # Theorems -/

/-! ## Helper lemmas -/

/-- One overdue-sweep step is idempotent on a single payment row. -/
theorem overdueStep_idem (now : Int) (p : PaymentRow) :
    overdueStep now (overdueStep now p) = overdueStep now p := by
  by_cases h : p.status = PaymentStatus.PENDING ∧ p.dueDate < now
  · simp [overdueStep, h]
  · simp [overdueStep, h]

/-- The overdue sweep is idempotent on any list of payments. -/
theorem sweepPayments_idem (now : Int) (ps : List PaymentRow) :
    sweepPayments now (sweepPayments now ps) = sweepPayments now ps := by
  induction ps with
  | nil => rfl
  | cons a l ih =>
    simp only [sweepPayments, List.map_cons] at ih ⊢
    rw [overdueStep_idem, ih]

/-- Base equation of `iterAdd`. -/
theorem iterAdd_zero (a s : Nat) : iterAdd a 0 s = s := rfl

/-- Splitting an iterated binary64 addition. -/
theorem iterAdd_add (a m n : Nat) :
    ∀ s, iterAdd a (m + n) s = iterAdd a m (iterAdd a n s) := by
  induction n with
  | zero => intro s; rfl
  | succ k ih =>
    intro s
    show iterAdd a (m + k + 1) s = _
    show iterAdd a (m + k) (f64add48 s a) = _
    rw [ih (f64add48 s a)]
    rfl

/-- A pointwise relation that every element bears to itself holds between a
list and itself. -/
theorem forall₂_self_of {α : Type} {P : α → α → Prop} (h : ∀ x, P x x) :
    ∀ l : List α, List.Forall₂ P l l
  | [] => List.Forall₂.nil
  | a :: t => List.Forall₂.cons (h a) (forall₂_self_of h t)

/-- A pointwise relation that every element bears to its image holds between
a list and its map. -/
theorem forall₂_map_self {α : Type} {P : α → α → Prop} (f : α → α)
    (h : ∀ x, P x (f x)) : ∀ l : List α, List.Forall₂ P l (l.map f)
  | [] => List.Forall₂.nil
  | a :: t => List.Forall₂.cons (h a) (forall₂_map_self f h t)

/-- Every payment list is pointwise unchanged-or-PAID relative to itself. -/
theorem payments_unchanged_rel (l : List PaymentRow) :
    List.Forall₂ (fun q0 q1 => q1 = q0 ∨ q1.status = PaymentStatus.PAID) l l :=
  @forall₂_self_of PaymentRow
    (fun q0 q1 => q1 = q0 ∨ q1.status = PaymentStatus.PAID)
    (fun _ => Or.inl rfl) l

/-- The settlement `map` of `markPaymentAsPaid` rewrites each row to itself or
to a PAID row. -/
theorem settle_map_rel (payId : Nat) (body : PayBody) (now : Int)
    (pm : PaymentRow) (l : List PaymentRow) :
    List.Forall₂ (fun q0 q1 => q1 = q0 ∨ q1.status = PaymentStatus.PAID) l
      (l.map fun q => if q.id == payId then settlePayment body now pm else q) :=
  @forall₂_map_self PaymentRow
    (fun q0 q1 => q1 = q0 ∨ q1.status = PaymentStatus.PAID)
    (fun q => if q.id == payId then settlePayment body now pm else q)
    (fun x => by
      dsimp only
      by_cases hid : (x.id == payId) = true
      · rw [if_pos hid]
        exact Or.inr rfl
      · rw [if_neg hid]
        exact Or.inl rfl) l

/-- Equation for the already-PAID branch of `markPaymentAsPaid`: the conflict
is reported before the ownership check and the store is left untouched. -/
theorem markPaymentAsPaid_alreadyPaid (db : DB) (u : AuthUser) (payId : Nat)
    (body : PayBody) (now : Int) (p : PaymentRow)
    (hfind : db.payments.find? (fun x => x.id == payId) = some p)
    (hpaid : p.status = PaymentStatus.PAID) :
    markPaymentAsPaid u payId body now db =
      (HOut.err 400 "Payment already paid", db) := by
  unfold markPaymentAsPaid
  rw [hfind]
  simp [hpaid]

/-- Equation for the success branch of `markPaymentAsPaid`. -/
theorem markPaymentAsPaid_success (db : DB) (u : AuthUser) (payId : Nat)
    (body : PayBody) (now : Int) (p : PaymentRow) (a : Nat)
    (hfind : db.payments.find? (fun x => x.id == payId) = some p)
    (hnp : p.status ≠ PaymentStatus.PAID)
    (hall : allowedOwnerIdStrict u = Except.ok a)
    (hscope : paymentLeaseOwnerId db p = some a) :
    markPaymentAsPaid u payId body now db =
      (HOut.ok (settlePayment body now p),
       { db with
          payments := db.payments.map fun q =>
            if q.id == payId then settlePayment body now p else q }) := by
  unfold markPaymentAsPaid
  rw [hfind]
  simp [hnp, hall, hscope]

/-! ## C9 -/

/-- C9: the overdue-detection sweep is idempotent — one run at time `now`
transitions every payment with status PENDING and `dueDate < now` to OVERDUE,
and a second run on the resulting state with the same `now` changes no
payment. -/
theorem c9_overdueSweepIdempotent (now : Int) (db : DB) (p : PaymentRow)
    (hp : p ∈ db.payments) (h1 : p.status = PaymentStatus.PENDING)
    (h2 : p.dueDate < now) :
    checkOverduePaymentsSweep now (checkOverduePaymentsSweep now db) =
      checkOverduePaymentsSweep now db
    ∧ { p with status := PaymentStatus.OVERDUE } ∈
        (checkOverduePaymentsSweep now db).payments := by
  constructor
  · simp only [checkOverduePaymentsSweep]
    rw [sweepPayments_idem]
  · simp only [checkOverduePaymentsSweep, sweepPayments]
    exact List.mem_map.mpr ⟨p, hp, by simp [overdueStep, h1, h2]⟩

/-- C9 witness: concrete run of the sweep on the base fixture. -/
theorem c9_overdueSweepIdempotent_witness :
    checkOverduePaymentsSweep 200 (checkOverduePaymentsSweep 200 dbBase) =
      checkOverduePaymentsSweep 200 dbBase
    ∧ { pay41 with status := PaymentStatus.OVERDUE } ∈
        (checkOverduePaymentsSweep 200 dbBase).payments :=
  c9_overdueSweepIdempotent 200 dbBase pay41 (by decide) (by decide) (by decide)

/-! ## C10 -/

/-- C10: `authorize` constructed with a single array argument — the form used
on the payment update/delete/process routes — responds 403 Forbidden to every
authenticated caller regardless of role, because the rest parameter wraps the
array and the membership test compares the caller's role string against an
array value; the spread form `authorize('A', 'B', ...)` lets exactly the
listed roles through. -/
theorem c10_authorizeArrayForbidsAll :
    (∀ u : AuthUser,
      authorize [JsArg.arr ["SUPER_ADMIN", "OWNER", "MANAGER"]] (some u) =
        MwResult.forbidden)
    ∧ (∀ u : AuthUser,
      authorize [JsArg.str "SUPER_ADMIN", JsArg.str "OWNER", JsArg.str "MANAGER"]
          (some u) = MwResult.next ↔ u.role ≠ Role.TENANT) := by
  constructor
  · intro u; rfl
  · intro u
    rcases u with ⟨uid, role, ow, mg, tn⟩
    cases role with
    | SUPER_ADMIN => exact ⟨fun _ h => Role.noConfusion h, fun _ => rfl⟩
    | OWNER => exact ⟨fun _ h => Role.noConfusion h, fun _ => rfl⟩
    | MANAGER => exact ⟨fun _ h => Role.noConfusion h, fun _ => rfl⟩
    | TENANT => exact ⟨fun h => MwResult.noConfusion h, fun h => absurd rfl h⟩

/-- C10 witness: the array form denies even a SUPER_ADMIN, the spread form
admits one. -/
theorem c10_authorizeArrayForbidsAll_witness :
    authorize [JsArg.arr ["SUPER_ADMIN", "OWNER", "MANAGER"]] (some uSuper) =
      MwResult.forbidden
    ∧ (authorize [JsArg.str "SUPER_ADMIN", JsArg.str "OWNER", JsArg.str "MANAGER"]
        (some uSuper) = MwResult.next ↔ uSuper.role ≠ Role.TENANT) :=
  ⟨c10_authorizeArrayForbidsAll.1 uSuper, c10_authorizeArrayForbidsAll.2 uSuper⟩

/-! ## C1 -/

/-- C1: refuted as stated — a TENANT caller who supplies a `tenantId` query
parameter naming another tenant receives that other tenant's payment rows from
`getPayments` (the parameter assignment overwrites the role scope filter), and
likewise the other tenant's lease rows from `getLeases`.  Caller tenant 21
obtains payment 42 and lease 32 of tenant 22. -/
theorem c1_tenantScopeOverride :
    getPayments uTenant21 qTenant22 dbBase = Except.ok [pay42]
    ∧ pay42.tenantId = 22
    ∧ getLeases uTenant21 lqTenant22 dbBase = Except.ok [lease32]
    ∧ lease32.tenantId = 22
    ∧ uTenant21.tenant = some { id := 21 } := by
  refine ⟨by decide, rfl, by decide, rfl, rfl⟩

/-! ## C2 -/

/-- C2 counterexample: `getOverduePayments` is a caller-facing read operation,
yet it transitions payment 41 — PENDING before the call, past its due date —
to OVERDUE in the store. -/
theorem c2_getOverdueMutates :
    pay41.status = PaymentStatus.PENDING
    ∧ pay41 ∈ dbBase.payments
    ∧ (getOverduePayments uOwner1 200 dbBase).2.payments.find?
        (fun p => p.id == 41) =
      some { pay41 with status := PaymentStatus.OVERDUE } := by
  refine ⟨rfl, by decide, by decide⟩

/-! ## C3 -/

/-- C3 counterexample: a MANAGER whose permissions map has no
`approvePayments` entry settles an in-scope payment through
`markPaymentAsPaid` successfully (the claim expects Forbidden and an unchanged
row); the defined-but-unused `checkPermissions` middleware would have denied
this caller. -/
theorem c3_managerSettlesWithoutFlag :
    lookupPerm ((uManagerNoPerm.manager.map ManagerProfile.permissions).getD [])
        "approvePayments" = none
    ∧ (markPaymentAsPaid uManagerNoPerm 41 payBodyCash 160 dbBase).1 =
        HOut.ok (settlePayment payBodyCash 160 pay41)
    ∧ checkPermissions ["approvePayments"] (some uManagerNoPerm) =
        MwResult.forbidden := by
  refine ⟨rfl, by decide, by decide⟩

/-! ## C4 -/

/-- C4: refuted — a SUPER_ADMIN caller is denied by each cited operation on an
existing, otherwise-valid target: `createLease` and `terminateLease` answer
403 Forbidden at the ownership gate (the check compares against the undefined
manager scope), and `createPayment` and `markPaymentAsPaid` throw a TypeError
(surfaced as a 500 internal error).  An OWNER caller on the identical inputs
passes every gate: the payment operations then succeed, and the lease
operations get past authorization and fail only at the store write (their
create/update data does not match the schema's Lease model), never with
Forbidden — so the 403 is specific to the SUPER_ADMIN caller, and no role at
all makes the lease operations succeed. -/
theorem c4_superAdminDenied :
    (createLease uSuper leaseBody300 99 dbBase).1 = HOut.err 403 "Forbidden"
    ∧ (createLease uOwner1 leaseBody300 99 dbBase).1 = HOut.thrown
    ∧ (createLease uOwner1 leaseBody300 99 dbBase).1 ≠ HOut.err 403 "Forbidden"
    ∧ (terminateLease uSuper 31 none none 500 dbBase).1 = HOut.err 403 "Forbidden"
    ∧ (terminateLease uOwner1 31 none none 500 dbBase).1 = HOut.thrown
    ∧ (terminateLease uOwner1 31 none none 500 dbBase).1 ≠ HOut.err 403 "Forbidden"
    ∧ (createPayment uSuper payBody500 90 dbBase).1 = HOut.thrown
    ∧ (∃ p, (createPayment uOwner1 payBody500 90 dbBase).1 = HOut.ok p)
    ∧ (markPaymentAsPaid uSuper 41 {} 160 dbBase).1 = HOut.thrown
    ∧ (∃ p, (markPaymentAsPaid uOwner1 41 {} 160 dbBase).1 = HOut.ok p) := by
  refine ⟨by decide, by decide, by decide, by decide, by decide, by decide,
    by decide, ⟨pay90, by decide⟩, by decide, ⟨pay41Settled, by decide⟩⟩

/-! ## C5 -/

/-- C5: `markPaymentAsPaid` on an already-PAID payment returns the conflict
error and leaves the row (and the whole store) unchanged; on a non-PAID
payment with a matching ownership scope it sets status PAID, records the
supplied method/transactionId/notes, and sets `paidDate`. -/
theorem c5_markPaidConflictOrSettle (db : DB) (u : AuthUser) (payId : Nat)
    (body : PayBody) (now : Int) (p : PaymentRow) (a : Nat)
    (hfind : db.payments.find? (fun x => x.id == payId) = some p)
    (hall : allowedOwnerIdStrict u = Except.ok a)
    (hscope : paymentLeaseOwnerId db p = some a) :
    (p.status = PaymentStatus.PAID →
      (markPaymentAsPaid u payId body now db).1 = HOut.err 400 "Payment already paid"
      ∧ (markPaymentAsPaid u payId body now db).2 = db)
    ∧ (p.status ≠ PaymentStatus.PAID →
      (markPaymentAsPaid u payId body now db).1 = HOut.ok (settlePayment body now p)
      ∧ (settlePayment body now p).status = PaymentStatus.PAID
      ∧ (settlePayment body now p).paidDate = some now
      ∧ (∀ m, body.method = some m → (settlePayment body now p).method = m)
      ∧ (∀ t, body.transactionId = some t →
          (settlePayment body now p).transactionId = some t)
      ∧ (∀ s, body.notes = some s → s ≠ "" →
          (settlePayment body now p).notes = some s)
      ∧ settlePayment body now p ∈ (markPaymentAsPaid u payId body now db).2.payments) := by
  constructor
  · intro hpaid
    rw [markPaymentAsPaid_alreadyPaid db u payId body now p hfind hpaid]
    exact ⟨rfl, rfl⟩
  · intro hnp
    rw [markPaymentAsPaid_success db u payId body now p a hfind hnp hall hscope]
    refine ⟨rfl, rfl, rfl, ?_, ?_, ?_, ?_⟩
    · intro m hm; simp [settlePayment, hm]
    · intro t ht; simp [settlePayment, ht]
    · intro s hs hne; simp [settlePayment, jsOrNotes, hs, hne]
    · have hmem := List.mem_of_find?_eq_some hfind
      have hpred := List.find?_some hfind
      exact List.mem_map.mpr ⟨p, hmem, by rw [hpred]; rfl⟩

/-- C5 witness: owner 1 settles the PENDING payment 41 with a full body. -/
theorem c5_markPaidConflictOrSettle_witness :
    (markPaymentAsPaid uOwner1 41 payBodyCash 160 dbBase).1 =
      HOut.ok (settlePayment payBodyCash 160 pay41) :=
  ((c5_markPaidConflictOrSettle dbBase uOwner1 41 payBodyCash 160 pay41 1
      (by decide) (by decide) (by decide)).2 (by decide)).1

/-! ## C3 (amended) -/

/-- C3 amended: the manual settlement path never consults the manager
permissions map — a MANAGER whose permissions lack `approvePayments == true`
still settles an in-scope, non-PAID payment successfully (an OWNER succeeds
likewise, see the C5 theorem), even though the `checkPermissions` middleware
defined in auth.js — wired to no route — would have returned Forbidden for
this caller. -/
theorem c3_settlementIgnoresPermissions (db : DB) (u : AuthUser)
    (m : ManagerProfile) (payId : Nat) (body : PayBody) (now : Int)
    (p : PaymentRow)
    (hrole : u.role = Role.MANAGER) (hm : u.manager = some m)
    (hperm : lookupPerm m.permissions "approvePayments" ≠ some true)
    (hfind : db.payments.find? (fun x => x.id == payId) = some p)
    (hnp : p.status ≠ PaymentStatus.PAID)
    (hscope : paymentLeaseOwnerId db p = some m.ownerId) :
    (markPaymentAsPaid u payId body now db).1 =
      HOut.ok (settlePayment body now p)
    ∧ checkPermissions ["approvePayments"] (some u) = MwResult.forbidden := by
  have hall : allowedOwnerIdStrict u = Except.ok m.ownerId := by
    simp [allowedOwnerIdStrict, hrole, hm]
  constructor
  · rw [markPaymentAsPaid_success db u payId body now p m.ownerId hfind hnp hall
        hscope]
  · simp only [checkPermissions, hrole, hm]
    rw [List.all_cons, List.all_nil, Bool.and_true,
      beq_eq_false_iff_ne.mpr hperm]
    simp

/-- C3 amended witness: the concrete permission-less manager settles
payment 41. -/
theorem c3_settlementIgnoresPermissions_witness :
    (markPaymentAsPaid uManagerNoPerm 41 payBodyCash 160 dbBase).1 =
      HOut.ok (settlePayment payBodyCash 160 pay41)
    ∧ checkPermissions ["approvePayments"] (some uManagerNoPerm) =
        MwResult.forbidden :=
  c3_settlementIgnoresPermissions dbBase uManagerNoPerm
    { id := 51, ownerId := 1, permissions := [("manageProperties", true)] }
    41 payBodyCash 160 pay41 rfl rfl (by decide) (by decide) (by decide) (by decide)

/-! ## C6 -/

/-- C6 counterexample: a new lease abutting an ACTIVE lease (its startDate
equal to the existing lease's endDate, so the closed-open intervals do not
overlap and the claim expects acceptance) is rejected with the conflict
error: the source's test uses `<=`/`>=`, comparing closed intervals. -/
theorem c6_abuttingLeaseRejected :
    createLease uOwner1 abutBody 99 dbBase =
      (HOut.err 400 "Conflicting lease", dbBase)
    ∧ ¬ specClosedOpenOverlap lease31.startDate lease31.endDate
        abutBody.startDate abutBody.endDate
    ∧ ¬ (∃ l ∈ dbBase.leases,
          l.tenantId = abutBody.tenantId ∧ l.status = LeaseStatus.ACTIVE) := by
  refine ⟨by decide, by decide, by decide⟩

/-- C6 amended: with the tenant and property resolving and the caller's scope
matching, lease creation is rejected with the conflict error exactly when the
tenant already holds an ACTIVE lease, or some ACTIVE lease on the same
property satisfies the source's closed-interval test
`startDate ≤ new.endDate ∧ new.startDate ≤ endDate` (so abutting leases are
rejected too). -/
theorem c6_leaseConflictCharacterization (db : DB) (u : AuthUser)
    (b : CreateLeaseBody) (nid : Nat) (ten : TenantRow) (pr : PropertyRow)
    (htfind : db.tenants.find? (fun t => t.id == b.tenantId) = some ten)
    (hpfind : db.properties.find? (fun x => x.id == b.propertyId) = some pr)
    (hall : allowedOwnerIdOpt u = Except.ok (some pr.ownerId)) :
    (createLease u b nid db).1 = HOut.err 400 "Conflicting lease" ↔
      ∃ l ∈ db.leases,
        (l.tenantId = b.tenantId ∧ l.status = LeaseStatus.ACTIVE)
        ∨ (l.propertyId = b.propertyId ∧ l.status = LeaseStatus.ACTIVE
            ∧ l.startDate ≤ b.endDate ∧ b.startDate ≤ l.endDate) := by
  have hiff : (db.leases.find? (leaseConflictPred b)).isSome = true ↔
      ∃ l ∈ db.leases,
        (l.tenantId = b.tenantId ∧ l.status = LeaseStatus.ACTIVE)
        ∨ (l.propertyId = b.propertyId ∧ l.status = LeaseStatus.ACTIVE
            ∧ l.startDate ≤ b.endDate ∧ b.startDate ≤ l.endDate) := by
    rw [List.find?_isSome]
    constructor
    · rintro ⟨l, hl, hpred⟩
      refine ⟨l, hl, ?_⟩
      simpa [leaseConflictPred, Bool.or_eq_true, Bool.and_eq_true, beq_iff_eq,
        decide_eq_true_eq, and_assoc] using hpred
    · rintro ⟨l, hl, hpred⟩
      refine ⟨l, hl, ?_⟩
      simpa [leaseConflictPred, Bool.or_eq_true, Bool.and_eq_true, beq_iff_eq,
        decide_eq_true_eq, and_assoc] using hpred
  unfold createLease
  rw [htfind, hpfind, hall]
  by_cases hc : (db.leases.find? (leaseConflictPred b)).isSome
  · simp only [hc, hiff.mp hc, iff_true]
    simp
  · have hnot := hc
    rw [Bool.not_eq_true] at hnot
    simp only [hnot]
    simp only [hiff.symm, hnot]
    simp

/-- C6 amended witness: on the base fixture, the abutting request conflicts
because lease 31 satisfies the closed-interval test. -/
theorem c6_leaseConflictCharacterization_witness :
    (createLease uOwner1 abutBody 99 dbBase).1 =
      HOut.err 400 "Conflicting lease" :=
  (c6_leaseConflictCharacterization dbBase uOwner1 abutBody 99 tenant23 prop11
      (by decide) (by decide) (by decide)).mpr
    ⟨lease31, by decide, Or.inr (by decide)⟩

/-! ## C7 -/

/-- C7 counterexample: with two owners and `analytics.create` failing for the
first one, the monthly sweep persists no snapshot at all — in particular none
for owner 2, whose own persistence would have succeeded. -/
theorem c7_ownerFailureAbortsBatch :
    generateMonthlyReportsSweep persistFailA 0 1000 dbBase = []
    ∧ ownerB ∈ dbBase.owners
    ∧ persistFailA ownerB.id = true := by
  refine ⟨by decide, by decide, rfl⟩

/-- C7 amended: when `analytics.create` throws for one owner, that run of the
monthly sweep persists snapshots exactly for the owners that precede the
failing one in the batch — the failing owner and every owner after it are
skipped (the exception is caught only at the sweep boundary). -/
theorem c7_failureTruncatesSweep (pf : Nat → Bool) (db : DB) (ws we : Int)
    (xs ys : List OwnerRow) (o : OwnerRow)
    (hsplit : db.owners = xs ++ o :: ys)
    (hok : ∀ x ∈ xs, pf x.id = true) (hfail : pf o.id = false) :
    generateMonthlyReportsSweep pf ws we db =
      xs.map (ownerSnapshot db ws we) := by
  have main : ∀ zs : List OwnerRow, (∀ x ∈ zs, pf x.id = true) →
      monthlyReportOwnersLoop pf db ws we (zs ++ o :: ys) =
        zs.map (ownerSnapshot db ws we) := by
    intro zs
    induction zs with
    | nil =>
      intro _
      simp [monthlyReportOwnersLoop, hfail]
    | cons x l ih =>
      intro hall2
      have hx : pf x.id = true := hall2 x (List.mem_cons_self x l)
      simp only [List.cons_append, monthlyReportOwnersLoop, hx, if_true,
        List.map_cons]
      exact congrArg (ownerSnapshot db ws we x :: ·)
        (ih (fun y hy => hall2 y (List.mem_cons_of_mem x hy)))
  unfold generateMonthlyReportsSweep
  rw [hsplit]
  exact main xs hok

/-- C7 amended witness: failure at the first of two owners leaves nothing
persisted in that run. -/
theorem c7_failureTruncatesSweep_witness :
    generateMonthlyReportsSweep persistFailA 0 1000 dbBase =
      List.map (ownerSnapshot dbBase 0 1000) [] :=
  c7_failureTruncatesSweep persistFailA dbBase 0 1000 [] [ownerB] ownerA
    (by decide) (fun x hx => absurd hx (List.not_mem_nil x)) rfl

/-! ## C2 (amended) -/

/-- C2 amended: besides the scheduled sweep, the caller-facing
`getOverduePayments` read endpoint also transitions past-due PENDING payments
to OVERDUE in the store; the other payment-touching operations never
introduce an OVERDUE row: `markPaymentAsPaid` rewrites each existing row to
itself or to its PAID settlement (pointwise, so no row of any status becomes
OVERDUE), `createPayment` leaves the table unchanged or appends one PENDING
row, and the lease operations leave the payment table untouched. -/
theorem c2_overdueTransitionActors (db : DB) (u uS : AuthUser)
    (payId nid : Nat) (body : PayBody) (b : CreatePaymentBody)
    (lb : CreateLeaseBody) (td : Option Int) (r : Option String) (now : Int)
    (p : PaymentRow)
    (hroleS : uS.role = Role.SUPER_ADMIN)
    (hp : p ∈ db.payments) (hst : p.status = PaymentStatus.PENDING)
    (hdue : p.dueDate < now) :
    List.Forall₂
      (fun q0 q1 => q1 = q0 ∨ q1.status = PaymentStatus.PAID)
      db.payments (markPaymentAsPaid u payId body now db).2.payments
    ∧ ((createPayment u b nid db).2.payments = db.payments
       ∨ ∃ q, (createPayment u b nid db).2.payments = db.payments ++ [q]
            ∧ q.status = PaymentStatus.PENDING)
    ∧ (createLease u lb nid db).2.payments = db.payments
    ∧ (terminateLease u payId td r now db).2.payments = db.payments
    ∧ { p with status := PaymentStatus.OVERDUE } ∈
        (getOverduePayments uS now db).2.payments := by
  refine ⟨?_, ?_, ?_, ?_, ?_⟩
  · unfold markPaymentAsPaid
    split
    · exact payments_unchanged_rel db.payments
    · split
      · exact payments_unchanged_rel db.payments
      · split
        · exact payments_unchanged_rel db.payments
        · split
          · exact payments_unchanged_rel db.payments
          · split
            · exact payments_unchanged_rel db.payments
            · exact settle_map_rel payId body now _ db.payments
  · unfold createPayment
    split
    · exact Or.inl rfl
    · split
      · exact Or.inl rfl
      · split
        · exact Or.inl rfl
        · split
          · exact Or.inl rfl
          · split
            · exact Or.inl rfl
            · exact Or.inr ⟨_, rfl, rfl⟩
  · unfold createLease
    split
    · rfl
    · split
      · rfl
      · split
        · rfl
        · split
          · rfl
          · split
            · rfl
            · rfl
  · unfold terminateLease
    split
    · rfl
    · split
      · rfl
      · split
        · rfl
        · split
          · rfl
          · split
            · rfl
            · rfl
  · have hscope : overdueScope uS = Except.ok none := by
      simp [overdueScope, hroleS]
    have hmatch : overdueMatches db none now p = true := by
      simp [overdueMatches, hst, hdue]
    unfold getOverduePayments
    rw [hscope]
    have hsel : p ∈ db.payments.filter (overdueMatches db none now) :=
      List.mem_filter.mpr ⟨hp, hmatch⟩
    have hid : p.id ∈ (db.payments.filter (overdueMatches db none now)).map
        (fun x => x.id) :=
      List.mem_map_of_mem (fun x => x.id) hsel
    exact List.mem_map.mpr ⟨p, hp, by rw [if_pos hid]⟩

/-- C2 amended witness: on the base fixture at time 160, a SUPER_ADMIN call to
`getOverduePayments` marks the past-due PENDING payment 41 OVERDUE, while the
mutating payment/lease operations introduce no OVERDUE row. -/
theorem c2_overdueTransitionActors_witness :
    List.Forall₂
      (fun q0 q1 => q1 = q0 ∨ q1.status = PaymentStatus.PAID)
      dbBase.payments
      (markPaymentAsPaid uOwner1 41 payBodyCash 160 dbBase).2.payments
    ∧ ((createPayment uOwner1 payBody500 90 dbBase).2.payments = dbBase.payments
       ∨ ∃ q, (createPayment uOwner1 payBody500 90 dbBase).2.payments =
              dbBase.payments ++ [q] ∧ q.status = PaymentStatus.PENDING)
    ∧ (createLease uOwner1 leaseBody300 99 dbBase).2.payments = dbBase.payments
    ∧ (terminateLease uOwner1 41 none none 160 dbBase).2.payments =
        dbBase.payments
    ∧ { pay41 with status := PaymentStatus.OVERDUE } ∈
        (getOverduePayments uSuper 160 dbBase).2.payments :=
  c2_overdueTransitionActors dbBase uOwner1 uSuper 41 90 payBodyCash payBody500
    leaseBody300 none none 160 pay41 rfl (by decide) rfl (by decide)

/-! ## C8 -/

/-- The binary64 value of 19.99 at scale 2⁻⁴⁸, evaluated. -/
theorem amt48_value : amt48 = 5626684784446013 := by decide

/-- Unfolding equation of `iterAdd`. -/
theorem iterAdd_succ (a k s : Nat) :
    iterAdd a (k + 1) s = iterAdd a k (f64add48 s a) := rfl

/-- The drift-fixture amount converts to the 19.99 double. -/
theorem toNumber48_payC8 : toNumber48 payC8.amount = amt48 := rfl

/-- The drift-fixture payment passes the analytics scope filter of owner 1. -/
theorem c8_scope_pred : analyticsScopeMatches dbC8 (some 1) payC8 = true := rfl

/-- The analytics scope filter keeps every payment of the drift fixture. -/
theorem c8_filter_rep (n : Nat) :
    (List.replicate n payC8).filter (analyticsScopeMatches dbC8 (some 1)) =
      List.replicate n payC8 := by
  induction n with
  | zero => rfl
  | succ k ih => simp [List.replicate_succ, List.filter_cons, c8_scope_pred, ih]

/-- The `totalAmount` fold over the drift fixture is the iterated binary64
addition of the 19.99 double. -/
theorem c8_fold_rep (n : Nat) :
    ∀ s : Nat,
      (List.replicate n payC8).foldl
        (fun acc x => f64add48 acc (toNumber48 x.amount)) s =
      iterAdd amt48 n s := by
  induction n with
  | zero => intro s; rfl
  | succ k ih =>
    intro s
    simp only [List.replicate_succ, List.foldl_cons]
    rw [toNumber48_payC8, iterAdd_succ]
    exact ih (f64add48 s amt48)

/-- Unfolding of the drift-fixture payment table. -/
theorem c8list_def : c8list = List.replicate 10000 payC8 := rfl

/-- The payment table of the drift store. -/
theorem c8_payments_def : dbC8.payments = c8list := rfl

/-- Scope filtering keeps the whole drift payment table. -/
theorem c8_hfil :
    c8list.filter (analyticsScopeMatches dbC8 (some 1)) = c8list := by
  rw [c8list_def]
  exact c8_filter_rep 10000

/-- Size of the drift payment table. -/
theorem c8_hlen : c8list.length = 10000 := by
  rw [c8list_def, List.length_replicate]

/-- The `totalAmount` fold over the drift payment table. -/
theorem c8_hfold :
    c8list.foldl (fun acc x => f64add48 acc (toNumber48 x.amount)) 0 =
      iterAdd amt48 10000 0 := by
  rw [c8list_def]
  exact c8_fold_rep 10000 0

/-- Exact rational accumulation of `n` copies of an amount. -/
theorem foldl_add_replicate (n : Nat) :
    ∀ acc : ℚ, ∀ q : ℚ,
      (List.replicate n q).foldl (· + ·) acc = acc + n * q := by
  induction n with
  | zero => intro acc q; simp
  | succ k ih =>
    intro acc q
    simp only [List.replicate_succ, List.foldl_cons]
    rw [ih]
    push_cast
    ring

set_option maxRecDepth 40000

/-- Step 1 of the chunked evaluation of the 10000-term binary64 fold. -/
theorem c8chunk1 : iterAdd amt48 100 0 = 562668478444601536 := by decide

/-- Step 2 of the chunked evaluation of the 10000-term binary64 fold. -/
theorem c8chunk2 : iterAdd amt48 100 562668478444601536 = 1125336956889196928 := by decide

/-- Step 3 of the chunked evaluation of the 10000-term binary64 fold. -/
theorem c8chunk3 : iterAdd amt48 100 1125336956889196928 = 1688005435333792256 := by decide

/-- Step 4 of the chunked evaluation of the 10000-term binary64 fold. -/
theorem c8chunk4 : iterAdd amt48 100 1688005435333792256 = 2250673913778387456 := by decide

/-- Step 5 of the chunked evaluation of the 10000-term binary64 fold. -/
theorem c8chunk5 : iterAdd amt48 100 2250673913778387456 = 2813342392222982656 := by decide

/-- Step 6 of the chunked evaluation of the 10000-term binary64 fold. -/
theorem c8chunk6 : iterAdd amt48 100 2813342392222982656 = 3376010870667577856 := by decide

/-- Step 7 of the chunked evaluation of the 10000-term binary64 fold. -/
theorem c8chunk7 : iterAdd amt48 100 3376010870667577856 = 3938679349112173056 := by decide

/-- Step 8 of the chunked evaluation of the 10000-term binary64 fold. -/
theorem c8chunk8 : iterAdd amt48 100 3938679349112173056 = 4501347827556768256 := by decide

/-- Step 9 of the chunked evaluation of the 10000-term binary64 fold. -/
theorem c8chunk9 : iterAdd amt48 100 4501347827556768256 = 5064016306001404928 := by decide

/-- Step 10 of the chunked evaluation of the 10000-term binary64 fold. -/
theorem c8chunk10 : iterAdd amt48 100 5064016306001404928 = 5626684784446051328 := by decide

/-- Step 11 of the chunked evaluation of the 10000-term binary64 fold. -/
theorem c8chunk11 : iterAdd amt48 100 5626684784446051328 = 6189353262890697728 := by decide

/-- Step 12 of the chunked evaluation of the 10000-term binary64 fold. -/
theorem c8chunk12 : iterAdd amt48 100 6189353262890697728 = 6752021741335344128 := by decide

/-- Step 13 of the chunked evaluation of the 10000-term binary64 fold. -/
theorem c8chunk13 : iterAdd amt48 100 6752021741335344128 = 7314690219779990528 := by decide

/-- Step 14 of the chunked evaluation of the 10000-term binary64 fold. -/
theorem c8chunk14 : iterAdd amt48 100 7314690219779990528 = 7877358698224636928 := by decide

/-- Step 15 of the chunked evaluation of the 10000-term binary64 fold. -/
theorem c8chunk15 : iterAdd amt48 100 7877358698224636928 = 8440027176669283328 := by decide

/-- Step 16 of the chunked evaluation of the 10000-term binary64 fold. -/
theorem c8chunk16 : iterAdd amt48 100 8440027176669283328 = 9002695655113929728 := by decide

/-- Step 17 of the chunked evaluation of the 10000-term binary64 fold. -/
theorem c8chunk17 : iterAdd amt48 100 9002695655113929728 = 9565364133558513664 := by decide

/-- Step 18 of the chunked evaluation of the 10000-term binary64 fold. -/
theorem c8chunk18 : iterAdd amt48 100 9565364133558513664 = 10128032612003057664 := by decide

/-- Step 19 of the chunked evaluation of the 10000-term binary64 fold. -/
theorem c8chunk19 : iterAdd amt48 100 10128032612003057664 = 10690701090447601664 := by decide

/-- Step 20 of the chunked evaluation of the 10000-term binary64 fold. -/
theorem c8chunk20 : iterAdd amt48 100 10690701090447601664 = 11253369568892145664 := by decide

/-- Step 21 of the chunked evaluation of the 10000-term binary64 fold. -/
theorem c8chunk21 : iterAdd amt48 100 11253369568892145664 = 11816038047336689664 := by decide

/-- Step 22 of the chunked evaluation of the 10000-term binary64 fold. -/
theorem c8chunk22 : iterAdd amt48 100 11816038047336689664 = 12378706525781233664 := by decide

/-- Step 23 of the chunked evaluation of the 10000-term binary64 fold. -/
theorem c8chunk23 : iterAdd amt48 100 12378706525781233664 = 12941375004225777664 := by decide

/-- Step 24 of the chunked evaluation of the 10000-term binary64 fold. -/
theorem c8chunk24 : iterAdd amt48 100 12941375004225777664 = 13504043482670321664 := by decide

/-- Step 25 of the chunked evaluation of the 10000-term binary64 fold. -/
theorem c8chunk25 : iterAdd amt48 100 13504043482670321664 = 14066711961114865664 := by decide

/-- Step 26 of the chunked evaluation of the 10000-term binary64 fold. -/
theorem c8chunk26 : iterAdd amt48 100 14066711961114865664 = 14629380439559409664 := by decide

/-- Step 27 of the chunked evaluation of the 10000-term binary64 fold. -/
theorem c8chunk27 : iterAdd amt48 100 14629380439559409664 = 15192048918003953664 := by decide

/-- Step 28 of the chunked evaluation of the 10000-term binary64 fold. -/
theorem c8chunk28 : iterAdd amt48 100 15192048918003953664 = 15754717396448497664 := by decide

/-- Step 29 of the chunked evaluation of the 10000-term binary64 fold. -/
theorem c8chunk29 : iterAdd amt48 100 15754717396448497664 = 16317385874893041664 := by decide

/-- Step 30 of the chunked evaluation of the 10000-term binary64 fold. -/
theorem c8chunk30 : iterAdd amt48 100 16317385874893041664 = 16880054353337585664 := by decide

/-- Step 31 of the chunked evaluation of the 10000-term binary64 fold. -/
theorem c8chunk31 : iterAdd amt48 100 16880054353337585664 = 17442722831782129664 := by decide

/-- Step 32 of the chunked evaluation of the 10000-term binary64 fold. -/
theorem c8chunk32 : iterAdd amt48 100 17442722831782129664 = 18005391310226673664 := by decide

/-- Step 33 of the chunked evaluation of the 10000-term binary64 fold. -/
theorem c8chunk33 : iterAdd amt48 100 18005391310226673664 = 18568059788671262720 := by decide

/-- Step 34 of the chunked evaluation of the 10000-term binary64 fold. -/
theorem c8chunk34 : iterAdd amt48 100 18568059788671262720 = 19130728267116011520 := by decide

/-- Step 35 of the chunked evaluation of the 10000-term binary64 fold. -/
theorem c8chunk35 : iterAdd amt48 100 19130728267116011520 = 19693396745560760320 := by decide

/-- Step 36 of the chunked evaluation of the 10000-term binary64 fold. -/
theorem c8chunk36 : iterAdd amt48 100 19693396745560760320 = 20256065224005509120 := by decide

/-- Step 37 of the chunked evaluation of the 10000-term binary64 fold. -/
theorem c8chunk37 : iterAdd amt48 100 20256065224005509120 = 20818733702450257920 := by decide

/-- Step 38 of the chunked evaluation of the 10000-term binary64 fold. -/
theorem c8chunk38 : iterAdd amt48 100 20818733702450257920 = 21381402180895006720 := by decide

/-- Step 39 of the chunked evaluation of the 10000-term binary64 fold. -/
theorem c8chunk39 : iterAdd amt48 100 21381402180895006720 = 21944070659339755520 := by decide

/-- Step 40 of the chunked evaluation of the 10000-term binary64 fold. -/
theorem c8chunk40 : iterAdd amt48 100 21944070659339755520 = 22506739137784504320 := by decide

/-- Step 41 of the chunked evaluation of the 10000-term binary64 fold. -/
theorem c8chunk41 : iterAdd amt48 100 22506739137784504320 = 23069407616229253120 := by decide

/-- Step 42 of the chunked evaluation of the 10000-term binary64 fold. -/
theorem c8chunk42 : iterAdd amt48 100 23069407616229253120 = 23632076094674001920 := by decide

/-- Step 43 of the chunked evaluation of the 10000-term binary64 fold. -/
theorem c8chunk43 : iterAdd amt48 100 23632076094674001920 = 24194744573118750720 := by decide

/-- Step 44 of the chunked evaluation of the 10000-term binary64 fold. -/
theorem c8chunk44 : iterAdd amt48 100 24194744573118750720 = 24757413051563499520 := by decide

/-- Step 45 of the chunked evaluation of the 10000-term binary64 fold. -/
theorem c8chunk45 : iterAdd amt48 100 24757413051563499520 = 25320081530008248320 := by decide

/-- Step 46 of the chunked evaluation of the 10000-term binary64 fold. -/
theorem c8chunk46 : iterAdd amt48 100 25320081530008248320 = 25882750008452997120 := by decide

/-- Step 47 of the chunked evaluation of the 10000-term binary64 fold. -/
theorem c8chunk47 : iterAdd amt48 100 25882750008452997120 = 26445418486897745920 := by decide

/-- Step 48 of the chunked evaluation of the 10000-term binary64 fold. -/
theorem c8chunk48 : iterAdd amt48 100 26445418486897745920 = 27008086965342494720 := by decide

/-- Step 49 of the chunked evaluation of the 10000-term binary64 fold. -/
theorem c8chunk49 : iterAdd amt48 100 27008086965342494720 = 27570755443787243520 := by decide

/-- Step 50 of the chunked evaluation of the 10000-term binary64 fold. -/
theorem c8chunk50 : iterAdd amt48 100 27570755443787243520 = 28133423922231992320 := by decide

/-- Step 51 of the chunked evaluation of the 10000-term binary64 fold. -/
theorem c8chunk51 : iterAdd amt48 100 28133423922231992320 = 28696092400676741120 := by decide

/-- Step 52 of the chunked evaluation of the 10000-term binary64 fold. -/
theorem c8chunk52 : iterAdd amt48 100 28696092400676741120 = 29258760879121489920 := by decide

/-- Step 53 of the chunked evaluation of the 10000-term binary64 fold. -/
theorem c8chunk53 : iterAdd amt48 100 29258760879121489920 = 29821429357566238720 := by decide

/-- Step 54 of the chunked evaluation of the 10000-term binary64 fold. -/
theorem c8chunk54 : iterAdd amt48 100 29821429357566238720 = 30384097836010987520 := by decide

/-- Step 55 of the chunked evaluation of the 10000-term binary64 fold. -/
theorem c8chunk55 : iterAdd amt48 100 30384097836010987520 = 30946766314455736320 := by decide

/-- Step 56 of the chunked evaluation of the 10000-term binary64 fold. -/
theorem c8chunk56 : iterAdd amt48 100 30946766314455736320 = 31509434792900485120 := by decide

/-- Step 57 of the chunked evaluation of the 10000-term binary64 fold. -/
theorem c8chunk57 : iterAdd amt48 100 31509434792900485120 = 32072103271345233920 := by decide

/-- Step 58 of the chunked evaluation of the 10000-term binary64 fold. -/
theorem c8chunk58 : iterAdd amt48 100 32072103271345233920 = 32634771749789982720 := by decide

/-- Step 59 of the chunked evaluation of the 10000-term binary64 fold. -/
theorem c8chunk59 : iterAdd amt48 100 32634771749789982720 = 33197440228234731520 := by decide

/-- Step 60 of the chunked evaluation of the 10000-term binary64 fold. -/
theorem c8chunk60 : iterAdd amt48 100 33197440228234731520 = 33760108706679480320 := by decide

/-- Step 61 of the chunked evaluation of the 10000-term binary64 fold. -/
theorem c8chunk61 : iterAdd amt48 100 33760108706679480320 = 34322777185124229120 := by decide

/-- Step 62 of the chunked evaluation of the 10000-term binary64 fold. -/
theorem c8chunk62 : iterAdd amt48 100 34322777185124229120 = 34885445663568977920 := by decide

/-- Step 63 of the chunked evaluation of the 10000-term binary64 fold. -/
theorem c8chunk63 : iterAdd amt48 100 34885445663568977920 = 35448114142013726720 := by decide

/-- Step 64 of the chunked evaluation of the 10000-term binary64 fold. -/
theorem c8chunk64 : iterAdd amt48 100 35448114142013726720 = 36010782620458475520 := by decide

/-- Step 65 of the chunked evaluation of the 10000-term binary64 fold. -/
theorem c8chunk65 : iterAdd amt48 100 36010782620458475520 = 36573451098903224320 := by decide

/-- Step 66 of the chunked evaluation of the 10000-term binary64 fold. -/
theorem c8chunk66 : iterAdd amt48 100 36573451098903224320 = 37136119577347792896 := by decide

/-- Step 67 of the chunked evaluation of the 10000-term binary64 fold. -/
theorem c8chunk67 : iterAdd amt48 100 37136119577347792896 = 37698788055792132096 := by decide

/-- Step 68 of the chunked evaluation of the 10000-term binary64 fold. -/
theorem c8chunk68 : iterAdd amt48 100 37698788055792132096 = 38261456534236471296 := by decide

/-- Step 69 of the chunked evaluation of the 10000-term binary64 fold. -/
theorem c8chunk69 : iterAdd amt48 100 38261456534236471296 = 38824125012680810496 := by decide

/-- Step 70 of the chunked evaluation of the 10000-term binary64 fold. -/
theorem c8chunk70 : iterAdd amt48 100 38824125012680810496 = 39386793491125149696 := by decide

/-- Step 71 of the chunked evaluation of the 10000-term binary64 fold. -/
theorem c8chunk71 : iterAdd amt48 100 39386793491125149696 = 39949461969569488896 := by decide

/-- Step 72 of the chunked evaluation of the 10000-term binary64 fold. -/
theorem c8chunk72 : iterAdd amt48 100 39949461969569488896 = 40512130448013828096 := by decide

/-- Step 73 of the chunked evaluation of the 10000-term binary64 fold. -/
theorem c8chunk73 : iterAdd amt48 100 40512130448013828096 = 41074798926458167296 := by decide

/-- Step 74 of the chunked evaluation of the 10000-term binary64 fold. -/
theorem c8chunk74 : iterAdd amt48 100 41074798926458167296 = 41637467404902506496 := by decide

/-- Step 75 of the chunked evaluation of the 10000-term binary64 fold. -/
theorem c8chunk75 : iterAdd amt48 100 41637467404902506496 = 42200135883346845696 := by decide

/-- Step 76 of the chunked evaluation of the 10000-term binary64 fold. -/
theorem c8chunk76 : iterAdd amt48 100 42200135883346845696 = 42762804361791184896 := by decide

/-- Step 77 of the chunked evaluation of the 10000-term binary64 fold. -/
theorem c8chunk77 : iterAdd amt48 100 42762804361791184896 = 43325472840235524096 := by decide

/-- Step 78 of the chunked evaluation of the 10000-term binary64 fold. -/
theorem c8chunk78 : iterAdd amt48 100 43325472840235524096 = 43888141318679863296 := by decide

/-- Step 79 of the chunked evaluation of the 10000-term binary64 fold. -/
theorem c8chunk79 : iterAdd amt48 100 43888141318679863296 = 44450809797124202496 := by decide

/-- Step 80 of the chunked evaluation of the 10000-term binary64 fold. -/
theorem c8chunk80 : iterAdd amt48 100 44450809797124202496 = 45013478275568541696 := by decide

/-- Step 81 of the chunked evaluation of the 10000-term binary64 fold. -/
theorem c8chunk81 : iterAdd amt48 100 45013478275568541696 = 45576146754012880896 := by decide

/-- Step 82 of the chunked evaluation of the 10000-term binary64 fold. -/
theorem c8chunk82 : iterAdd amt48 100 45576146754012880896 = 46138815232457220096 := by decide

/-- Step 83 of the chunked evaluation of the 10000-term binary64 fold. -/
theorem c8chunk83 : iterAdd amt48 100 46138815232457220096 = 46701483710901559296 := by decide

/-- Step 84 of the chunked evaluation of the 10000-term binary64 fold. -/
theorem c8chunk84 : iterAdd amt48 100 46701483710901559296 = 47264152189345898496 := by decide

/-- Step 85 of the chunked evaluation of the 10000-term binary64 fold. -/
theorem c8chunk85 : iterAdd amt48 100 47264152189345898496 = 47826820667790237696 := by decide

/-- Step 86 of the chunked evaluation of the 10000-term binary64 fold. -/
theorem c8chunk86 : iterAdd amt48 100 47826820667790237696 = 48389489146234576896 := by decide

/-- Step 87 of the chunked evaluation of the 10000-term binary64 fold. -/
theorem c8chunk87 : iterAdd amt48 100 48389489146234576896 = 48952157624678916096 := by decide

/-- Step 88 of the chunked evaluation of the 10000-term binary64 fold. -/
theorem c8chunk88 : iterAdd amt48 100 48952157624678916096 = 49514826103123255296 := by decide

/-- Step 89 of the chunked evaluation of the 10000-term binary64 fold. -/
theorem c8chunk89 : iterAdd amt48 100 49514826103123255296 = 50077494581567594496 := by decide

/-- Step 90 of the chunked evaluation of the 10000-term binary64 fold. -/
theorem c8chunk90 : iterAdd amt48 100 50077494581567594496 = 50640163060011933696 := by decide

/-- Step 91 of the chunked evaluation of the 10000-term binary64 fold. -/
theorem c8chunk91 : iterAdd amt48 100 50640163060011933696 = 51202831538456272896 := by decide

/-- Step 92 of the chunked evaluation of the 10000-term binary64 fold. -/
theorem c8chunk92 : iterAdd amt48 100 51202831538456272896 = 51765500016900612096 := by decide

/-- Step 93 of the chunked evaluation of the 10000-term binary64 fold. -/
theorem c8chunk93 : iterAdd amt48 100 51765500016900612096 = 52328168495344951296 := by decide

/-- Step 94 of the chunked evaluation of the 10000-term binary64 fold. -/
theorem c8chunk94 : iterAdd amt48 100 52328168495344951296 = 52890836973789290496 := by decide

/-- Step 95 of the chunked evaluation of the 10000-term binary64 fold. -/
theorem c8chunk95 : iterAdd amt48 100 52890836973789290496 = 53453505452233629696 := by decide

/-- Step 96 of the chunked evaluation of the 10000-term binary64 fold. -/
theorem c8chunk96 : iterAdd amt48 100 53453505452233629696 = 54016173930677968896 := by decide

/-- Step 97 of the chunked evaluation of the 10000-term binary64 fold. -/
theorem c8chunk97 : iterAdd amt48 100 54016173930677968896 = 54578842409122308096 := by decide

/-- Step 98 of the chunked evaluation of the 10000-term binary64 fold. -/
theorem c8chunk98 : iterAdd amt48 100 54578842409122308096 = 55141510887566647296 := by decide

/-- Step 99 of the chunked evaluation of the 10000-term binary64 fold. -/
theorem c8chunk99 : iterAdd amt48 100 55141510887566647296 = 55704179366010986496 := by decide

/-- Step 100 of the chunked evaluation of the 10000-term binary64 fold. -/
theorem c8chunk100 : iterAdd amt48 100 55704179366010986496 = 56266847844455325696 := by decide

/-- C8: refuted as stated — the payment-analytics `totalAmount` over 10000
payments of 19.99 each is accumulated in binary64 and comes out as
56266847844455325696·2⁻⁴⁸, which is not 199900 (= 10000 × 19.99) — the float
fold drifts; the same figures accumulated exactly (as the Decimal column
stores them) sum to exactly 199900. -/
theorem c8_floatDriftAt10000 :
    getPaymentAnalytics uOwner1 dbC8 =
      HOut.ok { totalPayments := 10000, totalAmount48 := 56266847844455325696 }
    ∧ (56266847844455325696 : Nat) ≠ 199900 * 2 ^ 48
    ∧ (List.replicate 10000 (mkRat 1999 100)).foldl (· + ·) 0 = 199900 := by
  refine ⟨?_, by decide, ?_⟩
  · have hval : iterAdd amt48 10000 0 = 56266847844455325696 := by
      rw [
        show (10000 : Nat) = 9900 + 100 from rfl, iterAdd_add, c8chunk1,
        show (9900 : Nat) = 9800 + 100 from rfl, iterAdd_add, c8chunk2,
        show (9800 : Nat) = 9700 + 100 from rfl, iterAdd_add, c8chunk3,
        show (9700 : Nat) = 9600 + 100 from rfl, iterAdd_add, c8chunk4,
        show (9600 : Nat) = 9500 + 100 from rfl, iterAdd_add, c8chunk5,
        show (9500 : Nat) = 9400 + 100 from rfl, iterAdd_add, c8chunk6,
        show (9400 : Nat) = 9300 + 100 from rfl, iterAdd_add, c8chunk7,
        show (9300 : Nat) = 9200 + 100 from rfl, iterAdd_add, c8chunk8,
        show (9200 : Nat) = 9100 + 100 from rfl, iterAdd_add, c8chunk9,
        show (9100 : Nat) = 9000 + 100 from rfl, iterAdd_add, c8chunk10,
        show (9000 : Nat) = 8900 + 100 from rfl, iterAdd_add, c8chunk11,
        show (8900 : Nat) = 8800 + 100 from rfl, iterAdd_add, c8chunk12,
        show (8800 : Nat) = 8700 + 100 from rfl, iterAdd_add, c8chunk13,
        show (8700 : Nat) = 8600 + 100 from rfl, iterAdd_add, c8chunk14,
        show (8600 : Nat) = 8500 + 100 from rfl, iterAdd_add, c8chunk15,
        show (8500 : Nat) = 8400 + 100 from rfl, iterAdd_add, c8chunk16,
        show (8400 : Nat) = 8300 + 100 from rfl, iterAdd_add, c8chunk17,
        show (8300 : Nat) = 8200 + 100 from rfl, iterAdd_add, c8chunk18,
        show (8200 : Nat) = 8100 + 100 from rfl, iterAdd_add, c8chunk19,
        show (8100 : Nat) = 8000 + 100 from rfl, iterAdd_add, c8chunk20,
        show (8000 : Nat) = 7900 + 100 from rfl, iterAdd_add, c8chunk21,
        show (7900 : Nat) = 7800 + 100 from rfl, iterAdd_add, c8chunk22,
        show (7800 : Nat) = 7700 + 100 from rfl, iterAdd_add, c8chunk23,
        show (7700 : Nat) = 7600 + 100 from rfl, iterAdd_add, c8chunk24,
        show (7600 : Nat) = 7500 + 100 from rfl, iterAdd_add, c8chunk25,
        show (7500 : Nat) = 7400 + 100 from rfl, iterAdd_add, c8chunk26,
        show (7400 : Nat) = 7300 + 100 from rfl, iterAdd_add, c8chunk27,
        show (7300 : Nat) = 7200 + 100 from rfl, iterAdd_add, c8chunk28,
        show (7200 : Nat) = 7100 + 100 from rfl, iterAdd_add, c8chunk29,
        show (7100 : Nat) = 7000 + 100 from rfl, iterAdd_add, c8chunk30,
        show (7000 : Nat) = 6900 + 100 from rfl, iterAdd_add, c8chunk31,
        show (6900 : Nat) = 6800 + 100 from rfl, iterAdd_add, c8chunk32,
        show (6800 : Nat) = 6700 + 100 from rfl, iterAdd_add, c8chunk33,
        show (6700 : Nat) = 6600 + 100 from rfl, iterAdd_add, c8chunk34,
        show (6600 : Nat) = 6500 + 100 from rfl, iterAdd_add, c8chunk35,
        show (6500 : Nat) = 6400 + 100 from rfl, iterAdd_add, c8chunk36,
        show (6400 : Nat) = 6300 + 100 from rfl, iterAdd_add, c8chunk37,
        show (6300 : Nat) = 6200 + 100 from rfl, iterAdd_add, c8chunk38,
        show (6200 : Nat) = 6100 + 100 from rfl, iterAdd_add, c8chunk39,
        show (6100 : Nat) = 6000 + 100 from rfl, iterAdd_add, c8chunk40,
        show (6000 : Nat) = 5900 + 100 from rfl, iterAdd_add, c8chunk41,
        show (5900 : Nat) = 5800 + 100 from rfl, iterAdd_add, c8chunk42,
        show (5800 : Nat) = 5700 + 100 from rfl, iterAdd_add, c8chunk43,
        show (5700 : Nat) = 5600 + 100 from rfl, iterAdd_add, c8chunk44,
        show (5600 : Nat) = 5500 + 100 from rfl, iterAdd_add, c8chunk45,
        show (5500 : Nat) = 5400 + 100 from rfl, iterAdd_add, c8chunk46,
        show (5400 : Nat) = 5300 + 100 from rfl, iterAdd_add, c8chunk47,
        show (5300 : Nat) = 5200 + 100 from rfl, iterAdd_add, c8chunk48,
        show (5200 : Nat) = 5100 + 100 from rfl, iterAdd_add, c8chunk49,
        show (5100 : Nat) = 5000 + 100 from rfl, iterAdd_add, c8chunk50,
        show (5000 : Nat) = 4900 + 100 from rfl, iterAdd_add, c8chunk51,
        show (4900 : Nat) = 4800 + 100 from rfl, iterAdd_add, c8chunk52,
        show (4800 : Nat) = 4700 + 100 from rfl, iterAdd_add, c8chunk53,
        show (4700 : Nat) = 4600 + 100 from rfl, iterAdd_add, c8chunk54,
        show (4600 : Nat) = 4500 + 100 from rfl, iterAdd_add, c8chunk55,
        show (4500 : Nat) = 4400 + 100 from rfl, iterAdd_add, c8chunk56,
        show (4400 : Nat) = 4300 + 100 from rfl, iterAdd_add, c8chunk57,
        show (4300 : Nat) = 4200 + 100 from rfl, iterAdd_add, c8chunk58,
        show (4200 : Nat) = 4100 + 100 from rfl, iterAdd_add, c8chunk59,
        show (4100 : Nat) = 4000 + 100 from rfl, iterAdd_add, c8chunk60,
        show (4000 : Nat) = 3900 + 100 from rfl, iterAdd_add, c8chunk61,
        show (3900 : Nat) = 3800 + 100 from rfl, iterAdd_add, c8chunk62,
        show (3800 : Nat) = 3700 + 100 from rfl, iterAdd_add, c8chunk63,
        show (3700 : Nat) = 3600 + 100 from rfl, iterAdd_add, c8chunk64,
        show (3600 : Nat) = 3500 + 100 from rfl, iterAdd_add, c8chunk65,
        show (3500 : Nat) = 3400 + 100 from rfl, iterAdd_add, c8chunk66,
        show (3400 : Nat) = 3300 + 100 from rfl, iterAdd_add, c8chunk67,
        show (3300 : Nat) = 3200 + 100 from rfl, iterAdd_add, c8chunk68,
        show (3200 : Nat) = 3100 + 100 from rfl, iterAdd_add, c8chunk69,
        show (3100 : Nat) = 3000 + 100 from rfl, iterAdd_add, c8chunk70,
        show (3000 : Nat) = 2900 + 100 from rfl, iterAdd_add, c8chunk71,
        show (2900 : Nat) = 2800 + 100 from rfl, iterAdd_add, c8chunk72,
        show (2800 : Nat) = 2700 + 100 from rfl, iterAdd_add, c8chunk73,
        show (2700 : Nat) = 2600 + 100 from rfl, iterAdd_add, c8chunk74,
        show (2600 : Nat) = 2500 + 100 from rfl, iterAdd_add, c8chunk75,
        show (2500 : Nat) = 2400 + 100 from rfl, iterAdd_add, c8chunk76,
        show (2400 : Nat) = 2300 + 100 from rfl, iterAdd_add, c8chunk77,
        show (2300 : Nat) = 2200 + 100 from rfl, iterAdd_add, c8chunk78,
        show (2200 : Nat) = 2100 + 100 from rfl, iterAdd_add, c8chunk79,
        show (2100 : Nat) = 2000 + 100 from rfl, iterAdd_add, c8chunk80,
        show (2000 : Nat) = 1900 + 100 from rfl, iterAdd_add, c8chunk81,
        show (1900 : Nat) = 1800 + 100 from rfl, iterAdd_add, c8chunk82,
        show (1800 : Nat) = 1700 + 100 from rfl, iterAdd_add, c8chunk83,
        show (1700 : Nat) = 1600 + 100 from rfl, iterAdd_add, c8chunk84,
        show (1600 : Nat) = 1500 + 100 from rfl, iterAdd_add, c8chunk85,
        show (1500 : Nat) = 1400 + 100 from rfl, iterAdd_add, c8chunk86,
        show (1400 : Nat) = 1300 + 100 from rfl, iterAdd_add, c8chunk87,
        show (1300 : Nat) = 1200 + 100 from rfl, iterAdd_add, c8chunk88,
        show (1200 : Nat) = 1100 + 100 from rfl, iterAdd_add, c8chunk89,
        show (1100 : Nat) = 1000 + 100 from rfl, iterAdd_add, c8chunk90,
        show (1000 : Nat) = 900 + 100 from rfl, iterAdd_add, c8chunk91,
        show (900 : Nat) = 800 + 100 from rfl, iterAdd_add, c8chunk92,
        show (800 : Nat) = 700 + 100 from rfl, iterAdd_add, c8chunk93,
        show (700 : Nat) = 600 + 100 from rfl, iterAdd_add, c8chunk94,
        show (600 : Nat) = 500 + 100 from rfl, iterAdd_add, c8chunk95,
        show (500 : Nat) = 400 + 100 from rfl, iterAdd_add, c8chunk96,
        show (400 : Nat) = 300 + 100 from rfl, iterAdd_add, c8chunk97,
        show (300 : Nat) = 200 + 100 from rfl, iterAdd_add, c8chunk98,
        show (200 : Nat) = 100 + 100 from rfl, iterAdd_add, c8chunk99,
        show (100 : Nat) = 0 + 100 from rfl, iterAdd_add, c8chunk100,
        iterAdd_zero]
    unfold getPaymentAnalytics
    rw [show buildScopeOwnerId uOwner1 = Except.ok (some 1) from rfl]
    show HOut.ok
        ({ totalPayments :=
            (dbC8.payments.filter (analyticsScopeMatches dbC8 (some 1))).length
           totalAmount48 :=
            (dbC8.payments.filter (analyticsScopeMatches dbC8 (some 1))).foldl
              (fun acc x => f64add48 acc (toNumber48 x.amount)) 0 } :
          PaymentAnalyticsOut) =
      HOut.ok { totalPayments := 10000
                totalAmount48 := 56266847844455325696 }
    rw [c8_payments_def, c8_hfil, c8_hlen, c8_hfold, hval]
  · rw [foldl_add_replicate]
    norm_num [Rat.mkRat_eq_div]

end Rental
